import Mathlib

/-!
# Alerting HTTP handlers of `pkg/api/alerting.go`

A shallow embedding of the notification-channel update handlers (with the
secure-settings merge), the pause handlers, the two evaluation entry points and the
inline rule test.

* Go maps are association lists (`GoMap`) read with `get` and written with `set`.
* `bus.Dispatch` is `Dispatch`: it hands the object to the registered handler, which is a
  field of `Env` (the handlers live in other packages), and records the object in a log,
  so that "what was dispatched" is observable.
* A Go function that can dereference a nil pointer returns an `Option`; `none` is the
  run-time panic.
* A `float64` is its bit pattern; `Sprintf_1_3f` renders its exact value the way Go's
  `fmt` does for `%1.3f`.
-/

namespace Alerting

/-! ## Go maps -/

/-- A Go `map[string]β`: an association list. Both the nil map and the empty map are `[]`. -/
abbrev GoMap (β : Type) := List (String × β)

/-- The Go lookup `v, ok := m[k]`: `some v` when `ok`, `none` otherwise. -/
def GoMap.get {β : Type} (m : GoMap β) (k : String) : Option β :=
  match m with
  | [] => none
  | (k', v) :: rest => if k' = k then some v else GoMap.get rest k

/-- The Go assignment `m[k] = v`: overwrite the entry of `k`, or add one. -/
def GoMap.set {β : Type} (m : GoMap β) (k : String) (v : β) : GoMap β :=
  match m with
  | [] => [(k, v)]
  | (k', v') :: rest => if k' = k then (k, v) :: rest else (k', v') :: GoMap.set rest k v

/-- The keys of a Go map. -/
def GoMap.keys {β : Type} (m : GoMap β) : List String := m.map Prod.fst

/-! ## Errors -/

/-- The sentinel errors the handlers test with `errors.Is`. -/
inductive ErrKind where
  | ErrAlertNotificationNotFound
  | other
deriving DecidableEq, Repr

/-- A Go `error` value: the sentinel it matches and the text of `err.Error()`. -/
structure GoError where
  kind : ErrKind
  text : String
deriving DecidableEq, Repr

/-- Go `errors.New(text)`. -/
def errorsNew (text : String) : GoError := { kind := ErrKind.other, text := text }

/-- Go `errors.Is(err, models.ErrAlertNotificationNotFound)`. -/
def isErrAlertNotificationNotFound (err : GoError) : Bool :=
  err.kind == ErrKind.ErrAlertNotificationNotFound

/-! ## Data model -/

/-- The type `models.AlertStateType`, a Go string type. -/
abbrev AlertStateType := String

/-- Modelled from the spec: the constant `models.AlertStatePaused` (package `models` is
not among the sources); the spec names the state `paused`. -/
def AlertStatePaused : AlertStateType := "paused"

/-- Modelled from the spec: the constant `models.AlertStateUnknown`; the spec names the
state `unknown`. -/
def AlertStateUnknown : AlertStateType := "unknown"

/-- Modelled from the spec: the constant `models.AlertStatePending`; the spec names the
state `pending`. -/
def AlertStatePending : AlertStateType := "pending"

/-- A serialised `simplejson.Json` document. -/
abbrev Json := String

/-- A `time.Time` instant. -/
abbrev Time := Int

/-- An IEEE-754 `float64`, kept as its bit pattern. -/
structure Float64 where
  bits : Nat
deriving DecidableEq, Repr

/-- The type `securejsondata.SecureJsonData`: encrypted values by key. -/
abbrev SecureJsonData := GoMap (List Nat)

/-- The type `http.Header`. -/
abbrev Header := GoMap (List String)

/-- The type `models.SignedInUser`, as far as the handlers use it: they only pass it on. -/
structure SignedInUser where
  UserId : Int
  OrgId : Int
deriving DecidableEq, Repr

/-- The type `models.LogzIoHeaders`. -/
structure LogzIoHeaders where
  RequestHeaders : Header
deriving DecidableEq, Repr

/-- The type `models.Alert`, with the fields `EvaluateAlert` fills in. -/
structure Alert where
  Id : Int
  Version : Int
  DashboardId : Int
  PanelId : Int
  OrgId : Int
  Name : String
  Message : String
  State : AlertStateType
  Settings : Json
  Frequency : Int
  Handler : Int
  Severity : String
  Silenced : Bool
  ExecutionError : String
  EvalData : Json
  NewStateDate : Time
  StateChanges : Int
  Created : Time
  Updated : Time
  For : Int
deriving DecidableEq, Repr

/-- The type `models.DataSource`, with the fields `EvaluateAlert` fills in. -/
structure DataSource where
  Id : Int
  OrgId : Int
  Version : Int
  Name : String
  Type_ : String
  Access : String
  Url : String
  Password : String
  User : String
  Database : String
  BasicAuth : Bool
  BasicAuthUser : String
  BasicAuthPassword : String
  WithCredentials : Bool
  IsDefault : Bool
  JsonData : Json
  SecureJsonData : SecureJsonData
  ReadOnly : Bool
  Uid : String
  Created : Time
  Updated : Time
deriving DecidableEq, Repr

/-- The type `models.AlertNotification`: a stored notification channel. -/
structure AlertNotification where
  Id : Int
  Uid : String
  OrgId : Int
  Settings : Json
  SecureSettings : SecureJsonData
deriving DecidableEq, Repr

/-- The type `models.UpdateAlertNotificationCommand`: the fields the handlers of this file
read or write, and the plaintext settings. -/
structure UpdateAlertNotificationCommand where
  Id : Int
  OrgId : Int
  Settings : Json
  SecureSettings : GoMap String
deriving DecidableEq, Repr

/-- The type `models.UpdateAlertNotificationWithUidCommand`. -/
structure UpdateAlertNotificationWithUidCommand where
  Uid : String
  OrgId : Int
  Settings : Json
  SecureSettings : GoMap String
deriving DecidableEq, Repr

/-- The type `models.PauseAlertCommand` (input fields). -/
structure PauseAlertCommand where
  OrgId : Int
  AlertIds : List Int
  Paused : Bool
deriving DecidableEq, Repr

/-- The type `models.PauseAllAlertCommand` (input fields). -/
structure PauseAllAlertCommand where
  Paused : Bool
deriving DecidableEq, Repr

/-- The type `alerting.EvaluateAlertCommand` (input fields). -/
structure EvaluateAlertCommand where
  Alert : Alert
  EvalTime : Time
  DataSourceUrl : String
  LogzIoHeaders : LogzIoHeaders
  CustomDataSources : List DataSource
deriving DecidableEq, Repr

/-- The type `alerting.EvaluateAlertByIdCommand` (input fields). -/
structure EvaluateAlertByIdCommand where
  AlertId : Int
  EvalTime : Time
  LogzIoHeaders : LogzIoHeaders
deriving DecidableEq, Repr

/-- The type `alerting.Rule`, as far as the handlers read it. -/
structure Rule where
  State : AlertStateType
deriving DecidableEq, Repr

/-- The type `alerting.ResultLogEntry`. -/
structure ResultLogEntry where
  Message : String
  Data : Json
deriving DecidableEq, Repr

/-- The type `alerting.EvalMatch`, as far as the handlers read it. -/
structure EvalMatch where
  Metric : String
  Value : Float64
deriving DecidableEq, Repr

/-- The type `alerting.EvalContext`: the outcome of one evaluation. `Rule` is a pointer,
`Error` an `error`; `durationMs` is the value of `GetDurationMs()`. -/
structure EvalContext where
  Firing : Bool
  ConditionEvals : String
  Rule : Option Rule
  Error : Option GoError
  Logs : List ResultLogEntry
  EvalMatches : List EvalMatch
  durationMs : Float64
deriving DecidableEq, Repr

/-! ## Request and response objects -/

/-- The type `dtos.PauseAlertCommand`. -/
structure dtos.PauseAlertCommand where
  AlertId : Int
  Paused : Bool
deriving DecidableEq, Repr

/-- The type `dtos.PauseAllAlertsCommand`. -/
structure dtos.PauseAllAlertsCommand where
  Paused : Bool
deriving DecidableEq, Repr

/-- The alert carried by `dtos.EvaluateAlertRequestCommand`. -/
structure dtos.Alert where
  ID : Int
  Version : Int
  DashboardID : Int
  PanelID : Int
  OrgID : Int
  Name : String
  Message : String
  State : String
  Settings : Json
  Frequency : Int
  Handler : Int
  Severity : String
  Silenced : Bool
  ExecutionError : String
  EvalData : Json
  NewStateDate : Time
  StateChanges : Int
  Created : Time
  Updated : Time
  For : Int
deriving DecidableEq, Repr

/-- The type `dtos.EvaluateAlertRequestCommand`. A caller-supplied data source has the
fields of `models.DataSource`. -/
structure dtos.EvaluateAlertRequestCommand where
  Alert : dtos.Alert
  EvalTime : Time
  DataSourceUrl : String
  CustomDataSources : List DataSource
deriving DecidableEq, Repr

/-- The type `dtos.EvaluateAlertByIdCommand`. -/
structure dtos.EvaluateAlertByIdCommand where
  AlertId : Int
  EvalTime : Time
deriving DecidableEq, Repr

/-- The type `dtos.AlertTestResultLog`. -/
structure dtos.AlertTestResultLog where
  Message : String
  Data : Json
deriving DecidableEq, Repr

/-- The type `dtos.EvalMatch`. -/
structure dtos.EvalMatch where
  Metric : String
  Value : Float64
deriving DecidableEq, Repr

/-- The type `dtos.AlertTestResult`: the normalised evaluation result. -/
structure dtos.AlertTestResult where
  Firing : Bool
  ConditionEvals : String
  State : AlertStateType
  Error : String
  TimeMs : String
  Logs : List dtos.AlertTestResultLog
  EvalMatches : List dtos.EvalMatch
deriving DecidableEq, Repr

/-- A value stored in a `map[string]interface{}` response body. -/
inductive JVal where
  | int (i : Int)
  | str (s : String)
deriving DecidableEq, Repr

/-- The body handed to `response.JSON`. -/
inductive Body where
  | result (m : GoMap JVal)
  | alertTestResult (r : dtos.AlertTestResult)
  | alertNotification (j : Json)
deriving DecidableEq, Repr

/-- A `response.Response`: `response.Error(status, message, err)` or
`response.JSON(status, body)`. -/
inductive Response where
  | Error (status : Nat) (message : String) (err : Option GoError)
  | JSON (status : Nat) (body : Body)
deriving DecidableEq, Repr

/-- The type `models.ReqContext`, as far as the handlers read it. -/
structure ReqContext where
  OrgId : Int
  SignedInUser : SignedInUser
  /-- The call `c.ParamsInt64(name)`. -/
  ParamsInt64 : String → Int
  /-- The call `c.Params(name)`. -/
  Params : String → String
  /-- The field `c.Req.Header`. -/
  Header : Header

/-! ## The bus -/

/-- The command and query objects this file dispatches, with their input fields. -/
inductive Msg where
  | GetAlertByIdQuery (Id : Int)
  | GetAlertNotificationsQuery (OrgId : Int) (Id : Int)
  | GetAlertNotificationsWithUidQuery (OrgId : Int) (Uid : String)
  | UpdateAlertNotificationCommand (cmd : UpdateAlertNotificationCommand)
  | UpdateAlertNotificationWithUidCommand (cmd : UpdateAlertNotificationWithUidCommand)
  | PauseAlertCommand (cmd : PauseAlertCommand)
  | PauseAllAlertCommand (cmd : PauseAllAlertCommand)
  | EvaluateAlertCommand (cmd : EvaluateAlertCommand)
  | EvaluateAlertByIdCommand (cmd : EvaluateAlertByIdCommand)
deriving DecidableEq, Repr

/-- The type of the result slot of each object (`Result`, or `ResultCount` for the two
pause commands). Pointer-typed slots are `Option`s: `none` is nil. -/
@[reducible]
def Msg.Result : Msg → Type
  | Msg.GetAlertByIdQuery _ => Option Alert
  | Msg.GetAlertNotificationsQuery _ _ => Option AlertNotification
  | Msg.GetAlertNotificationsWithUidQuery _ _ => Option AlertNotification
  | Msg.UpdateAlertNotificationCommand _ => Option AlertNotification
  | Msg.UpdateAlertNotificationWithUidCommand _ => Option AlertNotification
  | Msg.PauseAlertCommand _ => Int
  | Msg.PauseAllAlertCommand _ => Int
  | Msg.EvaluateAlertCommand _ => Option EvalContext
  | Msg.EvaluateAlertByIdCommand _ => Option EvalContext

/-- What a handler does with an object in store `s`: it returns an error, or fills the
result slot; either way it may change the store. -/
abbrev HandlerOutcome (σ : Type) (m : Msg) := Except GoError (Msg.Result m) × σ

/-- The collaborators of the handlers, none of which is defined in this file: the handlers
registered on the bus, the secrets codec, the guardian, the DTO constructor and `fmt`. -/
structure Env (σ : Type) where
  /-- The handler registered for each object type. A handler fills the result slot of the
  object and leaves its input fields as they are. -/
  handle : (m : Msg) → σ → HandlerOutcome σ m
  /-- The method `SecureJsonData.Decrypt()`. -/
  Decrypt : SecureJsonData → GoMap String
  /-- The call `guardian.New(dashboardId, orgId, user).CanEdit()`. -/
  CanEdit : Int → Int → SignedInUser → σ → Except GoError Bool
  /-- The call `dtos.NewAlertNotification(p)`, as JSON; `none` is a panic. -/
  NewAlertNotification : Option AlertNotification → Option Json
  /-- The rendering `fmt.Sprintf("%1.3f", x)` of a float64. -/
  sprintf_1_3f : Float64 → String
  /-- The rendering of the struct `dto.Alert` under the verb `%d`. -/
  sprintf_d_Alert : dtos.Alert → String
  /-- The rendering of `dto.EvalTime` under the verb `%s`. -/
  sprintf_s_Time : Time → String

/-- The store behind the handlers, and every object dispatched so far, oldest first. -/
structure World (σ : Type) where
  store : σ
  log : List Msg

/-- The call `bus.Dispatch(&m)`: run the registered handler and return its error
unchanged, or the filled result slot. -/
def Dispatch {σ : Type} (env : Env σ) (m : Msg) (w : World σ) :
    Except GoError (Msg.Result m) × World σ :=
  ((env.handle m w.store).1, { store := (env.handle m w.store).2, log := w.log ++ [m] })

/-! ## Secure settings merge -/

/-- The loop `for k, v := range secureSettings` of the two merge functions: a stored key
that the command lacks is copied into the command. -/
def mergeSecureSettings (secureSettings : GoMap String) (cmdSettings : GoMap String) :
    GoMap String :=
  secureSettings.foldl
    (fun acc kv => match acc.get kv.1 with
      | some _ => acc
      | none => acc.set kv.1 kv.2)
    cmdSettings

/-- What a merge call leaves behind: the returned `error` (`none` is nil) and the command
behind the pointer. -/
structure FillResult (C : Type) where
  err : Option GoError
  cmd : C
deriving DecidableEq, Repr

/-- The function `fillWithSecureSettingsData`. The outer `none` is the nil dereference of
`query.Result` when the handler returns no error and no channel. -/
def fillWithSecureSettingsData {σ : Type} (env : Env σ)
    (cmd : UpdateAlertNotificationCommand) (w : World σ) :
    Option (FillResult UpdateAlertNotificationCommand) × World σ :=
  if cmd.SecureSettings.length = 0 then
    (some { err := none, cmd := cmd }, w)
  else
    match Dispatch env (Msg.GetAlertNotificationsQuery cmd.OrgId cmd.Id) w with
    | (Except.error err, w1) => (some { err := some err, cmd := cmd }, w1)
    | (Except.ok none, w1) => (none, w1)
    | (Except.ok (some result), w1) =>
      (some { err := none,
              cmd := { cmd with SecureSettings :=
                mergeSecureSettings (env.Decrypt result.SecureSettings) cmd.SecureSettings } },
       w1)

/-- The function `fillWithSecureSettingsDataByUID`. -/
def fillWithSecureSettingsDataByUID {σ : Type} (env : Env σ)
    (cmd : UpdateAlertNotificationWithUidCommand) (w : World σ) :
    Option (FillResult UpdateAlertNotificationWithUidCommand) × World σ :=
  if cmd.SecureSettings.length = 0 then
    (some { err := none, cmd := cmd }, w)
  else
    match Dispatch env (Msg.GetAlertNotificationsWithUidQuery cmd.OrgId cmd.Uid) w with
    | (Except.error err, w1) => (some { err := some err, cmd := cmd }, w1)
    | (Except.ok none, w1) => (none, w1)
    | (Except.ok (some result), w1) =>
      (some { err := none,
              cmd := { cmd with SecureSettings :=
                mergeSecureSettings (env.Decrypt result.SecureSettings) cmd.SecureSettings } },
       w1)

/-! ## Notification channel update -/

/-- The handler `UpdateAlertNotification`. -/
def UpdateAlertNotification {σ : Type} (env : Env σ) (c : ReqContext)
    (cmd : UpdateAlertNotificationCommand) (w : World σ) : Option Response × World σ :=
  let cmd0 : UpdateAlertNotificationCommand := { cmd with OrgId := c.OrgId }
  match fillWithSecureSettingsData env cmd0 w with
  | (none, w1) => (none, w1)
  | (some { err := some err, cmd := _ }, w1) =>
    (some (Response.Error 500 "Failed to update alert notification" (some err)), w1)
  | (some { err := none, cmd := cmd1 }, w1) =>
    match Dispatch env (Msg.UpdateAlertNotificationCommand cmd1) w1 with
    | (Except.error err, w2) =>
      if isErrAlertNotificationNotFound err then
        (some (Response.Error 404 err.text (some err)), w2)
      else
        (some (Response.Error 500 "Failed to update alert notification" (some err)), w2)
    | (Except.ok _, w2) =>
      match Dispatch env (Msg.GetAlertNotificationsQuery c.OrgId cmd1.Id) w2 with
      | (Except.error err, w3) =>
        (some (Response.Error 500 "Failed to get alert notification" (some err)), w3)
      | (Except.ok result, w3) =>
        ((env.NewAlertNotification result).map
          (fun j => Response.JSON 200 (Body.alertNotification j)), w3)

/-- The handler `UpdateAlertNotificationByUID`. -/
def UpdateAlertNotificationByUID {σ : Type} (env : Env σ) (c : ReqContext)
    (cmd : UpdateAlertNotificationWithUidCommand) (w : World σ) : Option Response × World σ :=
  let cmd0 : UpdateAlertNotificationWithUidCommand :=
    { cmd with OrgId := c.OrgId, Uid := c.Params "uid" }
  match fillWithSecureSettingsDataByUID env cmd0 w with
  | (none, w1) => (none, w1)
  | (some { err := some err, cmd := _ }, w1) =>
    (some (Response.Error 500 "Failed to update alert notification" (some err)), w1)
  | (some { err := none, cmd := cmd1 }, w1) =>
    match Dispatch env (Msg.UpdateAlertNotificationWithUidCommand cmd1) w1 with
    | (Except.error err, w2) =>
      if isErrAlertNotificationNotFound err then
        (some (Response.Error 404 err.text none), w2)
      else
        (some (Response.Error 500 "Failed to update alert notification" (some err)), w2)
    | (Except.ok _, w2) =>
      match Dispatch env (Msg.GetAlertNotificationsWithUidQuery cmd1.OrgId cmd1.Uid) w2 with
      | (Except.error err, w3) =>
        (some (Response.Error 500 "Failed to get alert notification" (some err)), w3)
      | (Except.ok result, w3) =>
        ((env.NewAlertNotification result).map
          (fun j => Response.JSON 200 (Body.alertNotification j)), w3)

/-! ## Pause -/

/-- The handler `PauseAlert`. `none` is the nil dereference of `query.Result` when the
handler returns no error and no alert. -/
def PauseAlert {σ : Type} (env : Env σ) (c : ReqContext) (dto : dtos.PauseAlertCommand)
    (w : World σ) : Option Response × World σ :=
  let alertID := c.ParamsInt64 "alertId"
  let result : GoMap JVal := GoMap.set [] "alertId" (JVal.int alertID)
  match Dispatch env (Msg.GetAlertByIdQuery alertID) w with
  | (Except.error err, w1) => (some (Response.Error 500 "Get Alert failed" (some err)), w1)
  | (Except.ok none, w1) => (none, w1)
  | (Except.ok (some alert), w1) =>
    match env.CanEdit alert.DashboardId c.OrgId c.SignedInUser w1.store with
    | Except.error err =>
      (some (Response.Error 500 "Error while checking permissions for Alert" (some err)), w1)
    | Except.ok false =>
      (some (Response.Error 403 "Access denied to this dashboard and alert" none), w1)
    | Except.ok true =>
      if alert.State ≠ AlertStatePaused ∧ dto.Paused = false then
        let result1 := GoMap.set result "state" (JVal.str "un-paused")
        let result2 := GoMap.set result1 "message" (JVal.str "Alert is already un-paused")
        (some (Response.JSON 200 (Body.result result2)), w1)
      else if alert.State = AlertStatePaused ∧ dto.Paused = true then
        let result1 := GoMap.set result "state" (JVal.str AlertStatePaused)
        let result2 := GoMap.set result1 "message" (JVal.str "Alert is already paused")
        (some (Response.JSON 200 (Body.result result2)), w1)
      else
        let cmd : PauseAlertCommand :=
          { OrgId := c.OrgId, AlertIds := [alertID], Paused := dto.Paused }
        match Dispatch env (Msg.PauseAlertCommand cmd) w1 with
        | (Except.error err, w2) => (some (Response.Error 500 "" (some err)), w2)
        | (Except.ok _, w2) =>
          let resp : AlertStateType := if cmd.Paused then AlertStatePaused else AlertStateUnknown
          let pausedState : String := if cmd.Paused then "paused" else "un-paused"
          let result1 := GoMap.set result "state" (JVal.str resp)
          let result2 := GoMap.set result1 "message" (JVal.str ("Alert " ++ pausedState))
          (some (Response.JSON 200 (Body.result result2)), w2)

/-- The handler `PauseAllAlerts`. -/
def PauseAllAlerts {σ : Type} (env : Env σ) (dto : dtos.PauseAllAlertsCommand)
    (w : World σ) : Response × World σ :=
  let updateCmd : PauseAllAlertCommand := { Paused := dto.Paused }
  match Dispatch env (Msg.PauseAllAlertCommand updateCmd) w with
  | (Except.error err, w1) => (Response.Error 500 "Failed to pause alerts" (some err), w1)
  | (Except.ok resultCount, w1) =>
    let resp : AlertStateType :=
      if updateCmd.Paused then AlertStatePaused else AlertStatePending
    let pausedState : String := if updateCmd.Paused then "paused" else "un paused"
    let result : GoMap JVal :=
      [("state", JVal.str resp),
       ("message", JVal.str ("alerts " ++ pausedState)),
       ("alertsAffected", JVal.int resultCount)]
    (Response.JSON 200 (Body.result result), w1)

/-! ## Evaluation -/

/-- The normalisation of an evaluation outcome shared by the evaluation handlers; `none`
is the nil dereference of `res.Rule`. -/
def toAlertTestResult {σ : Type} (env : Env σ) (res : EvalContext) :
    Option dtos.AlertTestResult :=
  match res.Rule with
  | none => none
  | some rule =>
    some
      { Firing := res.Firing
        ConditionEvals := res.ConditionEvals
        State := rule.State
        Error := match res.Error with
          | some e => e.text
          | none => ""
        Logs := res.Logs.map (fun log => { Message := log.Message, Data := log.Data })
        EvalMatches :=
          res.EvalMatches.map (fun m => { Metric := m.Metric, Value := m.Value })
        TimeMs := env.sprintf_1_3f res.durationMs ++ "ms" }

/-- The command `alertCheckCommand` that `EvaluateAlert` builds from the request: the
caller's data sources and alert, copied field by field, the evaluation time, the data
source URL and the request headers. -/
def alertCheckCommand (c : ReqContext) (dto : dtos.EvaluateAlertRequestCommand) :
    EvaluateAlertCommand :=
  let customDataSources : List DataSource :=
    dto.CustomDataSources.map (fun ds =>
      { Id := ds.Id
        OrgId := ds.OrgId
        Version := ds.Version
        Name := ds.Name
        Type_ := ds.Type_
        Access := ds.Access
        Url := ds.Url
        Password := ds.Password
        User := ds.User
        Database := ds.Database
        BasicAuth := ds.BasicAuth
        BasicAuthUser := ds.BasicAuthUser
        BasicAuthPassword := ds.BasicAuthPassword
        WithCredentials := ds.WithCredentials
        IsDefault := ds.IsDefault
        JsonData := ds.JsonData
        SecureJsonData := ds.SecureJsonData
        ReadOnly := ds.ReadOnly
        Uid := ds.Uid
        Created := ds.Created
        Updated := ds.Updated })
  { Alert :=
      { Id := dto.Alert.ID
        Version := dto.Alert.Version
        DashboardId := dto.Alert.DashboardID
        PanelId := dto.Alert.PanelID
        OrgId := dto.Alert.OrgID
        Name := dto.Alert.Name
        Message := dto.Alert.Message
        State := dto.Alert.State
        Settings := dto.Alert.Settings
        Frequency := dto.Alert.Frequency
        Handler := dto.Alert.Handler
        Severity := dto.Alert.Severity
        Silenced := dto.Alert.Silenced
        ExecutionError := dto.Alert.ExecutionError
        EvalData := dto.Alert.EvalData
        NewStateDate := dto.Alert.NewStateDate
        StateChanges := dto.Alert.StateChanges
        Created := dto.Alert.Created
        Updated := dto.Alert.Updated
        For := dto.Alert.For }
    EvalTime := dto.EvalTime
    DataSourceUrl := dto.DataSourceUrl
    LogzIoHeaders := { RequestHeaders := c.Header }
    CustomDataSources := customDataSources }

/-- The handler `EvaluateAlert`, for a rule supplied inline. `none` is the nil dereference
of `res.Rule`. -/
def EvaluateAlert {σ : Type} (env : Env σ) (c : ReqContext)
    (dto : dtos.EvaluateAlertRequestCommand) (w : World σ) : Option Response × World σ :=
  match Dispatch env (Msg.EvaluateAlertCommand (alertCheckCommand c dto)) w with
  | (Except.error err, w1) => (some (Response.Error 500 "Failed to check alert" (some err)), w1)
  | (Except.ok (some res), w1) =>
    ((toAlertTestResult env res).map
      (fun dtoRes => Response.JSON 200 (Body.alertTestResult dtoRes)), w1)
  | (Except.ok none, w1) =>
    let msg := "Failed to check alert: " ++ env.sprintf_d_Alert dto.Alert ++ ", date: "
      ++ env.sprintf_s_Time dto.EvalTime
    (some (Response.Error 500 msg (some (errorsNew "results not found"))), w1)

/-- The command `evaluateAlertByIdCommand` that `EvaluateAlertById` builds from the
request. -/
def evaluateAlertByIdCommand (c : ReqContext) (dto : dtos.EvaluateAlertByIdCommand) :
    EvaluateAlertByIdCommand :=
  { AlertId := dto.AlertId
    EvalTime := dto.EvalTime
    LogzIoHeaders := { RequestHeaders := c.Header } }

/-- The handler `EvaluateAlertById`, for a persisted rule. `none` is the nil dereference of
`res.Rule`. -/
def EvaluateAlertById {σ : Type} (env : Env σ) (c : ReqContext)
    (dto : dtos.EvaluateAlertByIdCommand) (w : World σ) : Option Response × World σ :=
  match Dispatch env (Msg.EvaluateAlertByIdCommand (evaluateAlertByIdCommand c dto)) w with
  | (Except.error err, w1) => (some (Response.Error 500 "Failed to check alert" (some err)), w1)
  | (Except.ok (some res), w1) =>
    ((toAlertTestResult env res).map
      (fun dtoRes => Response.JSON 200 (Body.alertTestResult dtoRes)), w1)
  | (Except.ok none, w1) =>
    let msg := "Failed to check alert by Id: " ++ toString dto.AlertId ++ ", date: "
      ++ env.sprintf_s_Time dto.EvalTime
    (some (Response.Error 500 msg (some (errorsNew "results not found"))), w1)

/-! ## A concrete environment

A small store with in-memory handlers, used to run the handlers on concrete inputs. -/

/-- A store: the persisted alerts and notification channels. -/
structure DemoStore where
  alerts : List Alert
  channels : List AlertNotification
deriving DecidableEq, Repr

/-- An alert with the given id, dashboard and state. -/
def demoAlert (id : Int) (dashboardId : Int) (state : AlertStateType) : Alert :=
  { Id := id, Version := 0, DashboardId := dashboardId, PanelId := 1, OrgId := 1,
    Name := "cpu", Message := "", State := state, Settings := "", Frequency := 60,
    Handler := 1, Severity := "", Silenced := false, ExecutionError := "", EvalData := "",
    NewStateDate := 0, StateChanges := 0, Created := 0, Updated := 0, For := 0 }

/-- The stand-in cipher of the concrete environment: a secret is stored as its character
codes. -/
def demoEncrypt (m : GoMap String) : SecureJsonData :=
  m.map (fun kv => (kv.1, kv.2.data.map Char.toNat))

/-- The inverse of `demoEncrypt`. -/
def demoDecrypt (m : SecureJsonData) : GoMap String :=
  m.map (fun kv => (kv.1, String.mk (kv.2.map Char.ofNat)))

/-- In-memory handlers. A query for a missing alert or channel fails; an update stores the
secure settings it receives as they are; a pause command sets the state of the alerts it
names; an evaluation of a rule whose frequency (or id) is not positive fails, any other
yields no result. -/
def demoHandle : (m : Msg) → DemoStore → HandlerOutcome DemoStore m
  | Msg.GetAlertByIdQuery id, s =>
    match s.alerts.find? (fun a => a.Id = id) with
    | some a => (Except.ok (some a), s)
    | none => (Except.error (errorsNew "Could not find alert"), s)
  | Msg.GetAlertNotificationsQuery orgId id, s =>
    match s.channels.find? (fun n => n.OrgId = orgId ∧ n.Id = id) with
    | some n => (Except.ok (some n), s)
    | none =>
      (Except.error
        { kind := ErrKind.ErrAlertNotificationNotFound, text := "Alert notification not found" },
       s)
  | Msg.GetAlertNotificationsWithUidQuery orgId uid, s =>
    match s.channels.find? (fun n => n.OrgId = orgId ∧ n.Uid = uid) with
    | some n => (Except.ok (some n), s)
    | none =>
      (Except.error
        { kind := ErrKind.ErrAlertNotificationNotFound, text := "Alert notification not found" },
       s)
  | Msg.UpdateAlertNotificationCommand cmd, s =>
    match s.channels.find? (fun n => n.OrgId = cmd.OrgId ∧ n.Id = cmd.Id) with
    | some n =>
      let n1 : AlertNotification :=
        { n with Settings := cmd.Settings, SecureSettings := demoEncrypt cmd.SecureSettings }
      (Except.ok (some n1),
       { s with channels :=
          s.channels.map (fun x => if x.OrgId = cmd.OrgId ∧ x.Id = cmd.Id then n1 else x) })
    | none =>
      (Except.error
        { kind := ErrKind.ErrAlertNotificationNotFound, text := "Alert notification not found" },
       s)
  | Msg.UpdateAlertNotificationWithUidCommand cmd, s =>
    match s.channels.find? (fun n => n.OrgId = cmd.OrgId ∧ n.Uid = cmd.Uid) with
    | some n =>
      let n1 : AlertNotification :=
        { n with Settings := cmd.Settings, SecureSettings := demoEncrypt cmd.SecureSettings }
      (Except.ok (some n1),
       { s with channels :=
          s.channels.map (fun x => if x.OrgId = cmd.OrgId ∧ x.Uid = cmd.Uid then n1 else x) })
    | none =>
      (Except.error
        { kind := ErrKind.ErrAlertNotificationNotFound, text := "Alert notification not found" },
       s)
  | Msg.PauseAlertCommand cmd, s =>
    (Except.ok ((s.alerts.filter (fun a => a.Id ∈ cmd.AlertIds)).length : Int),
     { s with alerts := s.alerts.map (fun a =>
        if a.Id ∈ cmd.AlertIds then
          { a with State := if cmd.Paused then AlertStatePaused else AlertStateUnknown }
        else a) })
  | Msg.PauseAllAlertCommand cmd, s =>
    (Except.ok (s.alerts.length : Int),
     { s with alerts := s.alerts.map (fun a =>
        { a with State := if cmd.Paused then AlertStatePaused else AlertStateUnknown }) })
  | Msg.EvaluateAlertCommand cmd, s =>
    if cmd.Alert.Frequency ≤ 0 then
      (Except.error (errorsNew "Alert validation error: frequency"), s)
    else (Except.ok none, s)
  | Msg.EvaluateAlertByIdCommand cmd, s =>
    if cmd.AlertId ≤ 0 then (Except.error (errorsNew "Could not find alert"), s)
    else (Except.ok none, s)

/-- The concrete environment: the in-memory handlers, the stand-in cipher, a guardian that
lets a user edit within the user's own organisation, and stand-in renderings. -/
def demoEnv : Env DemoStore :=
  { handle := demoHandle
    Decrypt := demoDecrypt
    CanEdit := fun _ orgId user _ => Except.ok (decide (user.OrgId = orgId))
    NewAlertNotification := fun p => p.map (fun n => n.Uid)
    sprintf_1_3f := fun x => toString x.bits
    sprintf_d_Alert := fun a => toString a.ID
    sprintf_s_Time := fun t => toString t }

/-- A request of user 1 of organisation 1, for alert 1 or channel `u1`. -/
def demoReq : ReqContext :=
  { OrgId := 1
    SignedInUser := { UserId := 1, OrgId := 1 }
    ParamsInt64 := fun name => if name = "alertId" then 1 else 0
    Params := fun name => if name = "uid" then "u1" else ""
    Header := [] }

/-- A store whose channel 1 (uid `u1`) holds the secure settings `a:1, b:2`, with seven
alerts, the first in state `ok` and the second paused. -/
def demoStore : DemoStore :=
  { alerts :=
      [demoAlert 1 10 "ok", demoAlert 2 10 AlertStatePaused, demoAlert 3 10 "ok",
       demoAlert 4 10 "alerting", demoAlert 5 10 "no_data", demoAlert 6 10 "pending",
       demoAlert 7 10 "ok"]
    channels :=
      [{ Id := 1, Uid := "u1", OrgId := 1, Settings := "",
         SecureSettings := demoEncrypt [("a", "1"), ("b", "2")] }] }

/-- The concrete starting world: `demoStore`, nothing dispatched yet. -/
def demoWorld : World DemoStore := { store := demoStore, log := [] }

/-! ## Specification vocabulary -/

/-- The map `merged` is `U` extended with exactly the entries of `S` whose keys `U` lacks:
a key of `U` keeps its value in `U`, a key of `S` absent from `U` gets its value in `S`,
and no other key is present. -/
def ExtendsWith (merged U S : GoMap String) : Prop :=
  (∀ k v, U.get k = some v → merged.get k = some v) ∧
  (∀ k v, U.get k = none → S.get k = some v → merged.get k = some v) ∧
  (∀ k, U.get k = none → S.get k = none → merged.get k = none ∧ k ∉ merged.keys)

/-- The fetch query of `fillWithSecureSettingsData` for a command. -/
def fetchById (cmd : UpdateAlertNotificationCommand) : Msg :=
  Msg.GetAlertNotificationsQuery cmd.OrgId cmd.Id

/-- The fetch query of `fillWithSecureSettingsDataByUID` for a command. -/
def fetchByUid (cmd : UpdateAlertNotificationWithUidCommand) : Msg :=
  Msg.GetAlertNotificationsWithUidQuery cmd.OrgId cmd.Uid

/-- An update of channel 1 that supplies the secure settings `a:9`. -/
def demoUpdate : UpdateAlertNotificationCommand :=
  { Id := 1, OrgId := 1, Settings := "", SecureSettings := [("a", "9")] }

/-- An update of channel `u1` that supplies the secure settings `a:9`. -/
def demoUpdateUid : UpdateAlertNotificationWithUidCommand :=
  { Uid := "u1", OrgId := 1, Settings := "", SecureSettings := [("a", "9")] }

/-- The stored channel of `demoStore`. -/
def demoChannel : AlertNotification :=
  { Id := 1, Uid := "u1", OrgId := 1, Settings := "",
    SecureSettings := demoEncrypt [("a", "1"), ("b", "2")] }

/-- An update of channel 1 that supplies no secure settings. -/
def demoUpdateEmpty : UpdateAlertNotificationCommand :=
  { Id := 1, OrgId := 1, Settings := "", SecureSettings := [] }

/-- An update of channel `u1` that supplies no secure settings. -/
def demoUpdateUidEmpty : UpdateAlertNotificationWithUidCommand :=
  { Uid := "u1", OrgId := 1, Settings := "", SecureSettings := [] }

/-- An update of the missing channel 99 that supplies the secure settings `a:9`. -/
def demoUpdateMissing : UpdateAlertNotificationCommand :=
  { Id := 99, OrgId := 1, Settings := "", SecureSettings := [("a", "9")] }

/-- An update, sent to `u1`, that supplies `a:9` for organisation 2, which has no such
channel. -/
def demoUpdateUidMissing : UpdateAlertNotificationWithUidCommand :=
  { Uid := "u1", OrgId := 2, Settings := "", SecureSettings := [("a", "9")] }

/-- A request of user 2 of organisation 2, which has no channel. -/
def demoReqOrg2 : ReqContext :=
  { OrgId := 2
    SignedInUser := { UserId := 2, OrgId := 2 }
    ParamsInt64 := fun name => if name = "alertId" then 1 else 0
    Params := fun name => if name = "uid" then "u1" else ""
    Header := [] }

/-- The error of the in-memory handlers for a missing channel. -/
def demoNotFound : GoError :=
  { kind := ErrKind.ErrAlertNotificationNotFound, text := "Alert notification not found" }

/-- The body of the two no-op responses of `PauseAlert` for alert `id` and requested
flag `P`. -/
def alreadyBody (id : Int) (P : Bool) : GoMap JVal :=
  [("alertId", JVal.int id),
   ("state", JVal.str (if P then AlertStatePaused else "un-paused")),
   ("message", JVal.str (if P then "Alert is already paused" else "Alert is already un-paused"))]

/-- The body of the response of `PauseAlert` after a successful state change of alert `id`
to the requested flag `P`. -/
def changedBody (id : Int) (P : Bool) : GoMap JVal :=
  [("alertId", JVal.int id),
   ("state", JVal.str (if P then AlertStatePaused else AlertStateUnknown)),
   ("message", JVal.str (if P then "Alert paused" else "Alert un-paused"))]

/-- The state-change command `PauseAlert` builds for a request. -/
def pauseCommand (c : ReqContext) (dto : dtos.PauseAlertCommand) : PauseAlertCommand :=
  { OrgId := c.OrgId, AlertIds := [c.ParamsInt64 "alertId"], Paused := dto.Paused }

/-- A request of user 1 of organisation 1, for alert 2. -/
def demoReqAlert2 : ReqContext :=
  { OrgId := 1
    SignedInUser := { UserId := 1, OrgId := 1 }
    ParamsInt64 := fun name => if name = "alertId" then 2 else 0
    Params := fun _ => ""
    Header := [] }

/-- Handlers like the in-memory ones, except that every pause command fails. -/
def demoEnvPauseFails : Env DemoStore :=
  { demoEnv with
    handle := fun m s =>
      match m with
      | Msg.PauseAlertCommand _ => (Except.error (errorsNew "database is locked"), s)
      | Msg.PauseAllAlertCommand _ => (Except.error (errorsNew "database is locked"), s)
      | m => demoHandle m s }

/-- An inline evaluation request for a rule with the given frequency. -/
def demoEvaluate (frequency : Int) : dtos.EvaluateAlertRequestCommand :=
  { Alert :=
      { ID := 1, Version := 0, DashboardID := 10, PanelID := 1, OrgID := 1, Name := "cpu",
        Message := "", State := "ok", Settings := "", Frequency := frequency, Handler := 1,
        Severity := "", Silenced := false, ExecutionError := "", EvalData := "",
        NewStateDate := 0, StateChanges := 0, Created := 0, Updated := 0, For := 0 }
    EvalTime := 5
    DataSourceUrl := ""
    CustomDataSources := [] }

/-! ## Inline rule test -/

/-- A member of a decoded JSON object, as far as `simplejson` tells values apart. -/
inductive JsonMember where
  | null
  | bool (b : Bool)
  | number (n : Int)
  | string (s : String)
  | other (raw : Json)
deriving DecidableEq, Repr

/-- The dashboard document of a request (a `*simplejson.Json`): its top-level members. -/
abbrev Dashboard := GoMap JsonMember

/-- The type `dtos.AlertTestCommand`. -/
structure dtos.AlertTestCommand where
  Dashboard : Dashboard
  PanelId : Int
deriving DecidableEq, Repr

/-- The arguments of one call of `hs.AlertEngine.AlertTest`. -/
structure AlertTestCall where
  OrgId : Int
  Dashboard : Dashboard
  PanelId : Int
  User : SignedInUser
  Headers : LogzIoHeaders
deriving DecidableEq, Repr

/-- An error returned by the evaluation engine, with what the handler's tests find in it:
`validationErr` is the `alerting.ValidationError` that `errors.As` extracts, if any, and
`isErrDataSourceAccessDenied` is `errors.Is(err, models.ErrDataSourceAccessDenied)`. -/
structure EngineError where
  err : GoError
  validationErr : Option GoError
  isErrDataSourceAccessDenied : Bool
deriving DecidableEq, Repr

/-- The receiver of `AlertTest` with its collaborators, none of which is defined in this
file: the evaluation engine, the JSON reader and the collaborators of `Env`. -/
structure HTTPServer (σ : Type) where
  env : Env σ
  /-- The call `dashboard.Get("id").Int64()`: the value read and the error (`none` is nil). -/
  GetIdInt64 : Dashboard → Int × Option GoError
  /-- The method `hs.AlertEngine.AlertTest`. The engine may itself use the bus and the
  store. -/
  AlertEngine : AlertTestCall → World σ → Except EngineError (Option EvalContext) × World σ

/-- What a run of `AlertTest` leaves behind: the response (`none` is a nil dereference),
the world, and the calls made to the evaluation engine. -/
structure AlertTestOutcome (σ : Type) where
  response : Option Response
  world : World σ
  engineCalls : List AlertTestCall

/-- The arguments `AlertTest` hands to `hs.AlertEngine.AlertTest`: the caller's
organisation, the dashboard, the panel id, the user and the request headers. -/
def alertTestCall (c : ReqContext) (dto : dtos.AlertTestCommand) : AlertTestCall :=
  { OrgId := c.OrgId, Dashboard := dto.Dashboard, PanelId := dto.PanelId,
    User := c.SignedInUser, Headers := { RequestHeaders := c.Header } }

/-- The handler `AlertTest` (a method of `HTTPServer`). The value read from the member `id`
is discarded; only the error of the read is tested. -/
def HTTPServer.AlertTest {σ : Type} (hs : HTTPServer σ) (c : ReqContext)
    (dto : dtos.AlertTestCommand) (w : World σ) : AlertTestOutcome σ :=
  match (hs.GetIdInt64 dto.Dashboard).2 with
  | some _ =>
    { response := some (Response.Error 400
        "The dashboard needs to be saved at least once before you can test an alert rule" none)
      world := w
      engineCalls := [] }
  | none =>
    let call : AlertTestCall := alertTestCall c dto
    match hs.AlertEngine call w with
    | (Except.error e, w1) =>
      match e.validationErr with
      | some validationErr =>
        { response := some (Response.Error 422 validationErr.text none)
          world := w1
          engineCalls := [call] }
      | none =>
        if e.isErrDataSourceAccessDenied then
          { response := some (Response.Error 403 "Access denied to datasource" (some e.err))
            world := w1
            engineCalls := [call] }
        else
          { response := some (Response.Error 500 "Failed to test rule" (some e.err))
            world := w1
            engineCalls := [call] }
    | (Except.ok none, w1) => { response := none, world := w1, engineCalls := [call] }
    | (Except.ok (some res), w1) =>
      { response := (toAlertTestResult hs.env res).map
          (fun dtoRes => Response.JSON 200 (Body.alertTestResult dtoRes))
        world := w1
        engineCalls := [call] }

/-- A JSON reader for the concrete environment, after `simplejson`: a member `id` that is a
number reads as that number without error; a missing member or any other value reads as 0
with the error `invalid value type`. -/
def demoGetIdInt64 (d : Dashboard) : Int × Option GoError :=
  match d.get "id" with
  | some (JsonMember.number n) => (n, none)
  | _ => (0, some (errorsNew "invalid value type"))

/-- An engine for the concrete environment: it rejects a dashboard whose id is not
positive with a validation error and otherwise reports a rule that is not firing. It leaves
the world as it is. -/
def demoAlertEngine (call : AlertTestCall) (w : World DemoStore) :
    Except EngineError (Option EvalContext) × World DemoStore :=
  match call.Dashboard.get "id" with
  | some (JsonMember.number n) =>
    if 0 < n then
      (Except.ok (some
        { Firing := false, ConditionEvals := "", Rule := some { State := "ok" }, Error := none,
          Logs := [], EvalMatches := [], durationMs := { bits := 0 } }), w)
    else
      (Except.error
        { err := errorsNew "Alert validation error: dashboard id",
          validationErr := some (errorsNew "Alert validation error: dashboard id"),
          isErrDataSourceAccessDenied := false }, w)
  | _ =>
    (Except.error
      { err := errorsNew "Alert validation error: dashboard id",
        validationErr := some (errorsNew "Alert validation error: dashboard id"),
        isErrDataSourceAccessDenied := false }, w)

/-- The concrete server: `demoEnv` with the reader and the engine above. -/
def demoServer : HTTPServer DemoStore :=
  { env := demoEnv, GetIdInt64 := demoGetIdInt64, AlertEngine := demoAlertEngine }

/-- A test request for panel 5 of a dashboard whose member `id` is the number 0. -/
def demoTestIdZero : dtos.AlertTestCommand :=
  { Dashboard := [("id", JsonMember.number 0), ("title", JsonMember.string "New dashboard")],
    PanelId := 5 }

/-- A test request for panel 5 of a dashboard that has no member `id`. -/
def demoTestNoId : dtos.AlertTestCommand :=
  { Dashboard := [("title", JsonMember.string "New dashboard")], PanelId := 5 }

/-- A test request for panel 5 of a dashboard whose member `id` is null. -/
def demoTestNullId : dtos.AlertTestCommand :=
  { Dashboard := [("id", JsonMember.null), ("title", JsonMember.string "New dashboard")],
    PanelId := 5 }

/-! ## Duration rendering

The rendering of `fmt.Sprintf("%1.3fms", res.GetDurationMs())`. Package `fmt` belongs to
Go's standard library; its `%f` verb with precision 3 is `strconv.FormatFloat(x, 'f', 3,
64)`, which renders the exact value of the float64 rounded to the nearest thousandth, an
exact half going to the even neighbour. -/

/-- The sign bit of a float64. -/
def Float64.signBit (x : Float64) : Bool := decide ((x.bits / 2 ^ 63) % 2 = 1)

/-- The biased exponent field of a float64 (11 bits). -/
def Float64.exponent (x : Float64) : Nat := (x.bits / 2 ^ 52) % 2 ^ 11

/-- The fraction field of a float64 (52 bits). -/
def Float64.fraction (x : Float64) : Nat := x.bits % 2 ^ 52

/-- The mantissa of a finite float64: the fraction, with the implicit leading bit unless
the number is subnormal. -/
def Float64.mantissa (x : Float64) : Nat :=
  if x.exponent = 0 then x.fraction else 2 ^ 52 + x.fraction

/-- The binary exponent of a finite float64, biased by 1075: the magnitude is
`mantissa * 2 ^ (binexp - 1075)`. -/
def Float64.binexp (x : Float64) : Nat :=
  if x.exponent = 0 then 1 else x.exponent

/-- The numerator of the magnitude of a finite float64. -/
def Float64.num (x : Float64) : Nat := x.mantissa * 2 ^ (x.binexp - 1075)

/-- The denominator of the magnitude of a finite float64, a power of two. -/
def Float64.den (x : Float64) : Nat := 2 ^ (1075 - x.binexp)

/-- The exact magnitude of a finite float64. -/
def Float64.magnitude (x : Float64) : ℚ := (x.num : ℚ) / (x.den : ℚ)

/-- The quotient `n / D` rounded to the nearest integer, an exact half going to the even
neighbour: the rounding of `strconv.FormatFloat`. -/
def roundHalfEven (n D : Nat) : Nat :=
  if 2 * (n % D) < D then n / D
  else if D < 2 * (n % D) then n / D + 1
  else if (n / D) % 2 = 0 then n / D
  else n / D + 1

/-- Modelled from the spec: `standard rounding` of the quotient `n / D` to an integer, to
the nearest one, an exact half going up. -/
def roundHalfUp (n D : Nat) : Nat :=
  if 2 * (n % D) < D then n / D else n / D + 1

/-- The decimal digit of the units of `k`. -/
def digitChar (k : Nat) : Char := Char.ofNat (48 + k % 10)

/-- The three decimal places of a count of thousandths. -/
def threePlaces (N : Nat) : String :=
  String.mk [digitChar (N / 100), digitChar (N / 10), digitChar N]

/-- A count `N` of thousandths written as a decimal with three places. -/
def renderThousandths (N : Nat) : String :=
  toString (N / 1000) ++ "." ++ threePlaces N

/-- The magnitude of a finite float64 in thousandths, rounded to the nearest integer, an
exact half going to the even neighbour. -/
def Float64.thousandths (x : Float64) : Nat := roundHalfEven (x.num * 1000) x.den

/-- The rendering `fmt.Sprintf("%1.3f", x)` of Go's standard library: `NaN`, `+Inf` and
`-Inf` for the special values; otherwise a minus sign when the sign bit is set, and the
exact magnitude rounded to thousandths by `roundHalfEven`, with three decimal places. The
minimum width 1 never pads. -/
def Sprintf_1_3f (x : Float64) : String :=
  if x.exponent = 2047 then
    if x.fraction ≠ 0 then "NaN" else if x.signBit then "-Inf" else "+Inf"
  else
    (if x.signBit then "-" else "") ++ renderThousandths x.thousandths

/-- Modelled from the spec: a finite duration rendered `with three decimal places, standard
rounding`: as `Sprintf_1_3f`, but with an exact half rounded up. -/
def standardRounding_1_3f (x : Float64) : String :=
  (if x.signBit then "-" else "")
    ++ renderThousandths (roundHalfUp (x.num * 1000) x.den)

/-- The float64 nearest to 12.3456. -/
def duration_12_3456 : Float64 := { bits := 4623139572999716549 }

/-- The float64 0.0625, which is `2 ^ (-4)` exactly: 62,500 nanoseconds in milliseconds. -/
def duration_0_0625 : Float64 := { bits := 4589168020290535424 }

/-- The float64 0.1875, which is `3 * 2 ^ (-4)` exactly. -/
def duration_0_1875 : Float64 := { bits := 4595923419731591168 }

/-- The concrete environment with the float rendering of Go's `fmt`. -/
def demoEnvFmt : Env DemoStore := { demoEnv with sprintf_1_3f := Sprintf_1_3f }

/-- An evaluation outcome with the given duration: a rule in state `ok` that is not
firing. -/
def demoOutcome (d : Float64) : EvalContext :=
  { Firing := false, ConditionEvals := "", Rule := some { State := "ok" }, Error := none,
    Logs := [], EvalMatches := [], durationMs := d }

/-- The concrete environment with the float rendering of Go's `fmt` and an evaluation
handler for persisted rules that reports `demoOutcome d`. -/
def demoEnvDuration (d : Float64) : Env DemoStore :=
  { demoEnvFmt with
    handle := fun m s =>
      match m with
      | Msg.EvaluateAlertByIdCommand _ => (Except.ok (some (demoOutcome d)), s)
      | m => demoHandle m s }

/-! ## Go map lemmas -/

theorem GoMap.get_set {β : Type} (m : GoMap β) (k k' : String) (v : β) :
    (GoMap.set m k v).get k' = if k = k' then some v else m.get k' := by
  induction m with
  | nil => simp [GoMap.set, GoMap.get]
  | cons hd tl ih =>
    obtain ⟨a, b⟩ := hd
    by_cases hak : a = k
    · subst hak
      by_cases hak' : a = k' <;> simp [GoMap.set, GoMap.get, hak']
    · by_cases hak' : a = k'
      · subst hak'
        have hne : ¬ k = a := fun h => hak h.symm
        simp [GoMap.set, GoMap.get, hak, hne]
      · simp [GoMap.set, GoMap.get, hak, hak', ih]

theorem mergeSecureSettings_get (S U : GoMap String) (k : String) :
    (mergeSecureSettings S U).get k =
      match U.get k with
      | some v => some v
      | none => S.get k := by
  unfold mergeSecureSettings
  induction S generalizing U with
  | nil => cases h : GoMap.get U k <;> simp [GoMap.get, h]
  | cons hd tl ih =>
    obtain ⟨a, b⟩ := hd
    rw [List.foldl_cons, ih]
    cases ha : GoMap.get U a with
    | some x =>
      simp only
      by_cases hak : a = k
      · subst hak
        simp [ha]
      · cases hk : GoMap.get U k <;> simp [GoMap.get, hak]
    | none =>
      simp only [GoMap.get_set]
      by_cases hak : a = k
      · subst hak
        simp [GoMap.get, ha]
      · cases hk : GoMap.get U k <;> simp [GoMap.get, hak]

theorem GoMap.get_eq_none_iff {β : Type} (m : GoMap β) (k : String) :
    m.get k = none ↔ k ∉ m.keys := by
  induction m with
  | nil => simp [GoMap.get, GoMap.keys]
  | cons hd tl ih =>
    obtain ⟨a, b⟩ := hd
    by_cases hak : a = k
    · subst hak
      simp [GoMap.get, GoMap.keys]
    · have hka : ¬ k = a := fun h => hak h.symm
      have ih' : GoMap.get tl k = none ↔ k ∉ List.map Prod.fst tl := ih
      simp [GoMap.get, GoMap.keys, hak, hka, ih']

theorem mergeSecureSettings_extends (S U : GoMap String) :
    ExtendsWith (mergeSecureSettings S U) U S := by
  refine ⟨?_, ?_, ?_⟩
  · intro k v h
    rw [mergeSecureSettings_get, h]
  · intro k v h h'
    rw [mergeSecureSettings_get, h, h']
  · intro k h h'
    have hnone : (mergeSecureSettings S U).get k = none := by
      rw [mergeSecureSettings_get, h, h']
    exact ⟨hnone, (GoMap.get_eq_none_iff _ k).mp hnone⟩

theorem Dispatch_eq {σ : Type} (env : Env σ) (m : Msg) (w : World σ)
    (r : Except GoError (Msg.Result m)) (s : σ) (h : env.handle m w.store = (r, s)) :
    Dispatch env m w = (r, { store := s, log := w.log ++ [m] }) := by
  simp [Dispatch, h]

/-! ## Secure settings merge: theorems -/

/-- C1: when the update supplies a non-empty secure-settings map `U` and the fetch of the
current channel returns a channel whose decrypted secure settings are `S`, then
`fillWithSecureSettingsData` and `fillWithSecureSettingsDataByUID` return no error and
leave the command unchanged except for its secure settings, which become `U` extended
with exactly the entries of `S` whose keys are absent from `U`. -/
theorem fillWithSecureSettingsData_merges {σ : Type} (env : Env σ) (w : World σ)
    (cmd : UpdateAlertNotificationCommand) (cmdU : UpdateAlertNotificationWithUidCommand)
    (ch : AlertNotification) (s : σ) :
    (cmd.SecureSettings ≠ [] →
      env.handle (fetchById cmd) w.store = (Except.ok (some ch), s) →
      ∃ merged,
        (fillWithSecureSettingsData env cmd w).1
          = some { err := none, cmd := { cmd with SecureSettings := merged } } ∧
        ExtendsWith merged cmd.SecureSettings (env.Decrypt ch.SecureSettings)) ∧
    (cmdU.SecureSettings ≠ [] →
      env.handle (fetchByUid cmdU) w.store = (Except.ok (some ch), s) →
      ∃ merged,
        (fillWithSecureSettingsDataByUID env cmdU w).1
          = some { err := none, cmd := { cmdU with SecureSettings := merged } } ∧
        ExtendsWith merged cmdU.SecureSettings (env.Decrypt ch.SecureSettings)) := by
  constructor
  · intro hne hfetch
    have hlen : ¬ cmd.SecureSettings.length = 0 := by
      simpa [List.length_eq_zero] using hne
    refine ⟨mergeSecureSettings (env.Decrypt ch.SecureSettings) cmd.SecureSettings, ?_,
      mergeSecureSettings_extends _ _⟩
    have hq : env.handle (Msg.GetAlertNotificationsQuery cmd.OrgId cmd.Id) w.store
        = (Except.ok (some ch), s) := hfetch
    unfold fillWithSecureSettingsData
    rw [if_neg hlen, Dispatch_eq env _ w _ s hq]
  · intro hne hfetch
    have hlen : ¬ cmdU.SecureSettings.length = 0 := by
      simpa [List.length_eq_zero] using hne
    refine ⟨mergeSecureSettings (env.Decrypt ch.SecureSettings) cmdU.SecureSettings, ?_,
      mergeSecureSettings_extends _ _⟩
    have hq : env.handle (Msg.GetAlertNotificationsWithUidQuery cmdU.OrgId cmdU.Uid) w.store
        = (Except.ok (some ch), s) := hfetch
    unfold fillWithSecureSettingsDataByUID
    rw [if_neg hlen, Dispatch_eq env _ w _ s hq]

/-- C1, at a concrete input: stored `a:1, b:2` and an update supplying `a:9` give
`a:9, b:2`, by id and by uid. -/
theorem fillWithSecureSettingsData_merges_witness :
    ((∃ merged,
        (fillWithSecureSettingsData demoEnv demoUpdate demoWorld).1
          = some { err := none, cmd := { demoUpdate with SecureSettings := merged } } ∧
        ExtendsWith merged [("a", "9")] [("a", "1"), ("b", "2")]) ∧
      (fillWithSecureSettingsData demoEnv demoUpdate demoWorld).1
        = some { err := none, cmd := { demoUpdate with SecureSettings := [("a", "9"), ("b", "2")] } }) ∧
    ((∃ merged,
        (fillWithSecureSettingsDataByUID demoEnv demoUpdateUid demoWorld).1
          = some { err := none, cmd := { demoUpdateUid with SecureSettings := merged } } ∧
        ExtendsWith merged [("a", "9")] [("a", "1"), ("b", "2")]) ∧
      (fillWithSecureSettingsDataByUID demoEnv demoUpdateUid demoWorld).1
        = some { err := none,
                 cmd := { demoUpdateUid with SecureSettings := [("a", "9"), ("b", "2")] } }) :=
  ⟨⟨(fillWithSecureSettingsData_merges demoEnv demoWorld demoUpdate demoUpdateUid demoChannel
        demoStore).1 (by decide) (by rfl), by rfl⟩,
   ⟨(fillWithSecureSettingsData_merges demoEnv demoWorld demoUpdate demoUpdateUid demoChannel
        demoStore).2 (by decide) (by rfl), by rfl⟩⟩

theorem fillWithSecureSettingsData_empty {σ : Type} (env : Env σ) (w : World σ)
    (cmd : UpdateAlertNotificationCommand) (h : cmd.SecureSettings = []) :
    fillWithSecureSettingsData env cmd w = (some { err := none, cmd := cmd }, w) := by
  unfold fillWithSecureSettingsData
  rw [if_pos (by rw [h]; rfl)]

theorem fillWithSecureSettingsDataByUID_empty {σ : Type} (env : Env σ) (w : World σ)
    (cmd : UpdateAlertNotificationWithUidCommand) (h : cmd.SecureSettings = []) :
    fillWithSecureSettingsDataByUID env cmd w = (some { err := none, cmd := cmd }, w) := by
  unfold fillWithSecureSettingsDataByUID
  rw [if_pos (by rw [h]; rfl)]

theorem fillWithSecureSettingsData_found {σ : Type} (env : Env σ) (w : World σ)
    (cmd : UpdateAlertNotificationCommand) (ch : AlertNotification) (s : σ)
    (hne : cmd.SecureSettings ≠ [])
    (hq : env.handle (Msg.GetAlertNotificationsQuery cmd.OrgId cmd.Id) w.store
      = (Except.ok (some ch), s)) :
    fillWithSecureSettingsData env cmd w =
      (some { err := none,
              cmd := { cmd with SecureSettings :=
                mergeSecureSettings (env.Decrypt ch.SecureSettings) cmd.SecureSettings } },
       { store := s, log := w.log ++ [Msg.GetAlertNotificationsQuery cmd.OrgId cmd.Id] }) := by
  have hlen : ¬ cmd.SecureSettings.length = 0 := by
    simpa [List.length_eq_zero] using hne
  unfold fillWithSecureSettingsData
  rw [if_neg hlen, Dispatch_eq env _ w _ s hq]

theorem fillWithSecureSettingsDataByUID_found {σ : Type} (env : Env σ) (w : World σ)
    (cmd : UpdateAlertNotificationWithUidCommand) (ch : AlertNotification) (s : σ)
    (hne : cmd.SecureSettings ≠ [])
    (hq : env.handle (Msg.GetAlertNotificationsWithUidQuery cmd.OrgId cmd.Uid) w.store
      = (Except.ok (some ch), s)) :
    fillWithSecureSettingsDataByUID env cmd w =
      (some { err := none,
              cmd := { cmd with SecureSettings :=
                mergeSecureSettings (env.Decrypt ch.SecureSettings) cmd.SecureSettings } },
       { store := s,
         log := w.log ++ [Msg.GetAlertNotificationsWithUidQuery cmd.OrgId cmd.Uid] }) := by
  have hlen : ¬ cmd.SecureSettings.length = 0 := by
    simpa [List.length_eq_zero] using hne
  unfold fillWithSecureSettingsDataByUID
  rw [if_neg hlen, Dispatch_eq env _ w _ s hq]

theorem fillWithSecureSettingsData_failed {σ : Type} (env : Env σ) (w : World σ)
    (cmd : UpdateAlertNotificationCommand) (e : GoError) (s : σ)
    (hne : cmd.SecureSettings ≠ [])
    (hq : env.handle (Msg.GetAlertNotificationsQuery cmd.OrgId cmd.Id) w.store
      = (Except.error e, s)) :
    fillWithSecureSettingsData env cmd w =
      (some { err := some e, cmd := cmd },
       { store := s, log := w.log ++ [Msg.GetAlertNotificationsQuery cmd.OrgId cmd.Id] }) := by
  have hlen : ¬ cmd.SecureSettings.length = 0 := by
    simpa [List.length_eq_zero] using hne
  unfold fillWithSecureSettingsData
  rw [if_neg hlen, Dispatch_eq env _ w _ s hq]

theorem fillWithSecureSettingsDataByUID_failed {σ : Type} (env : Env σ) (w : World σ)
    (cmd : UpdateAlertNotificationWithUidCommand) (e : GoError) (s : σ)
    (hne : cmd.SecureSettings ≠ [])
    (hq : env.handle (Msg.GetAlertNotificationsWithUidQuery cmd.OrgId cmd.Uid) w.store
      = (Except.error e, s)) :
    fillWithSecureSettingsDataByUID env cmd w =
      (some { err := some e, cmd := cmd },
       { store := s,
         log := w.log ++ [Msg.GetAlertNotificationsWithUidQuery cmd.OrgId cmd.Uid] }) := by
  have hlen : ¬ cmd.SecureSettings.length = 0 := by
    simpa [List.length_eq_zero] using hne
  unfold fillWithSecureSettingsDataByUID
  rw [if_neg hlen, Dispatch_eq env _ w _ s hq]

/-- C3: for an update whose secure-settings map is empty (or nil),
`fillWithSecureSettingsData` and `fillWithSecureSettingsDataByUID` return no error, leave
every field of the command unchanged, and leave the store and the dispatch log as they
were: no fetch query is dispatched. -/
theorem fillWithSecureSettingsData_skips_empty {σ : Type} (env : Env σ) (w : World σ)
    (cmd : UpdateAlertNotificationCommand) (cmdU : UpdateAlertNotificationWithUidCommand) :
    (cmd.SecureSettings.length = 0 →
      fillWithSecureSettingsData env cmd w = (some { err := none, cmd := cmd }, w)) ∧
    (cmdU.SecureSettings.length = 0 →
      fillWithSecureSettingsDataByUID env cmdU w = (some { err := none, cmd := cmdU }, w)) :=
  ⟨fun h => fillWithSecureSettingsData_empty env w cmd (List.length_eq_zero.mp h),
   fun h => fillWithSecureSettingsDataByUID_empty env w cmdU (List.length_eq_zero.mp h)⟩

/-- C3, at a concrete input: an update of a channel with stored secrets that supplies no
secure settings. -/
theorem fillWithSecureSettingsData_skips_empty_witness :
    fillWithSecureSettingsData demoEnv demoUpdateEmpty demoWorld
      = (some { err := none, cmd := demoUpdateEmpty }, demoWorld) ∧
    fillWithSecureSettingsDataByUID demoEnv demoUpdateUidEmpty demoWorld
      = (some { err := none, cmd := demoUpdateUidEmpty }, demoWorld) :=
  ⟨(fillWithSecureSettingsData_skips_empty demoEnv demoWorld demoUpdateEmpty
      demoUpdateUidEmpty).1 (by decide),
   (fillWithSecureSettingsData_skips_empty demoEnv demoWorld demoUpdateEmpty
      demoUpdateUidEmpty).2 (by decide)⟩

/-- C4: for an update with a non-empty secure-settings map, if the fetch of the current
channel fails with error `e`, the merge function returns exactly `e` and leaves the command
(its secure settings included) unchanged, and the update handler returns an error response
carrying `e` after dispatching the fetch query only: the update command is never
dispatched. This holds by id and by uid. -/
theorem fetch_failure_stops_update {σ : Type} (env : Env σ) (w : World σ) (c : ReqContext)
    (cmd : UpdateAlertNotificationCommand) (cmdU : UpdateAlertNotificationWithUidCommand)
    (e : GoError) (s : σ) :
    (cmd.SecureSettings ≠ [] →
      env.handle (fetchById cmd) w.store = (Except.error e, s) →
      fillWithSecureSettingsData env cmd w
        = (some { err := some e, cmd := cmd },
           { store := s, log := w.log ++ [fetchById cmd] })) ∧
    (cmdU.SecureSettings ≠ [] →
      env.handle (fetchByUid cmdU) w.store = (Except.error e, s) →
      fillWithSecureSettingsDataByUID env cmdU w
        = (some { err := some e, cmd := cmdU },
           { store := s, log := w.log ++ [fetchByUid cmdU] })) ∧
    (cmd.SecureSettings ≠ [] →
      env.handle (fetchById { cmd with OrgId := c.OrgId }) w.store = (Except.error e, s) →
      UpdateAlertNotification env c cmd w
        = (some (Response.Error 500 "Failed to update alert notification" (some e)),
           { store := s, log := w.log ++ [fetchById { cmd with OrgId := c.OrgId }] })) ∧
    (cmdU.SecureSettings ≠ [] →
      env.handle (fetchByUid { cmdU with OrgId := c.OrgId, Uid := c.Params "uid" }) w.store
        = (Except.error e, s) →
      UpdateAlertNotificationByUID env c cmdU w
        = (some (Response.Error 500 "Failed to update alert notification" (some e)),
           { store := s,
             log := w.log ++
               [fetchByUid { cmdU with OrgId := c.OrgId, Uid := c.Params "uid" }] })) := by
  refine ⟨?_, ?_, ?_, ?_⟩
  · intro hne hq
    exact fillWithSecureSettingsData_failed env w cmd e s hne hq
  · intro hne hq
    exact fillWithSecureSettingsDataByUID_failed env w cmdU e s hne hq
  · intro hne hq
    unfold UpdateAlertNotification
    simp only []
    rw [fillWithSecureSettingsData_failed env w { cmd with OrgId := c.OrgId } e s hne hq]
    rfl
  · intro hne hq
    unfold UpdateAlertNotificationByUID
    simp only []
    rw [fillWithSecureSettingsDataByUID_failed env w
      { cmdU with OrgId := c.OrgId, Uid := c.Params "uid" } e s hne hq]
    rfl

/-- C4, at a concrete input: updates that name a channel the store does not have. -/
theorem fetch_failure_stops_update_witness :
    fillWithSecureSettingsData demoEnv demoUpdateMissing demoWorld
      = (some { err := some demoNotFound, cmd := demoUpdateMissing },
         { store := demoStore, log := [Msg.GetAlertNotificationsQuery 1 99] }) ∧
    fillWithSecureSettingsDataByUID demoEnv demoUpdateUidMissing demoWorld
      = (some { err := some demoNotFound, cmd := demoUpdateUidMissing },
         { store := demoStore, log := [Msg.GetAlertNotificationsWithUidQuery 2 "u1"] }) ∧
    UpdateAlertNotification demoEnv demoReq demoUpdateMissing demoWorld
      = (some (Response.Error 500 "Failed to update alert notification" (some demoNotFound)),
         { store := demoStore, log := [Msg.GetAlertNotificationsQuery 1 99] }) ∧
    UpdateAlertNotificationByUID demoEnv demoReqOrg2 demoUpdateUidMissing demoWorld
      = (some (Response.Error 500 "Failed to update alert notification" (some demoNotFound)),
         { store := demoStore, log := [Msg.GetAlertNotificationsWithUidQuery 2 "u1"] }) :=
  ⟨(fetch_failure_stops_update demoEnv demoWorld demoReq demoUpdateMissing
      demoUpdateUidMissing demoNotFound demoStore).1 (by decide) (by rfl),
   (fetch_failure_stops_update demoEnv demoWorld demoReq demoUpdateMissing
      demoUpdateUidMissing demoNotFound demoStore).2.1 (by decide) (by rfl),
   (fetch_failure_stops_update demoEnv demoWorld demoReq demoUpdateMissing
      demoUpdateUidMissing demoNotFound demoStore).2.2.1 (by decide) (by rfl),
   (fetch_failure_stops_update demoEnv demoWorld demoReqOrg2 demoUpdateMissing
      demoUpdateUidMissing demoNotFound demoStore).2.2.2 (by decide) (by rfl)⟩

/-- C2, refuted as stated: channel 1 stores the secure-setting key `a`; an update that
supplies no secure settings passes the merge without error, and the update command the
handler dispatches carries no key `a`: the in-memory store, which keeps what it receives,
ends with no secure settings at all. -/
theorem stored_key_lost_on_empty_update :
    (demoEnv.Decrypt demoChannel.SecureSettings).get "a" = some "1" ∧
    (fillWithSecureSettingsData demoEnv demoUpdateEmpty demoWorld).1
      = some { err := none, cmd := demoUpdateEmpty } ∧
    (UpdateAlertNotification demoEnv demoReq demoUpdateEmpty demoWorld).2.log
      = [Msg.UpdateAlertNotificationCommand demoUpdateEmpty,
         Msg.GetAlertNotificationsQuery 1 1] ∧
    demoUpdateEmpty.SecureSettings.get "a" = none ∧
    (UpdateAlertNotification demoEnv demoReq demoUpdateEmpty demoWorld).2.store.channels
      = [{ demoChannel with SecureSettings := [] }] := by
  refine ⟨by rfl, by rfl, by rfl, by rfl, by rfl⟩

/-- C2, amended: when the update supplies a non-empty secure-settings map and the fetch of
the current channel succeeds, `UpdateAlertNotification` dispatches, right after the fetch
query, an update command whose secure settings contain every key of the stored (decrypted)
map; when the update supplies an empty map, no fetch is dispatched and the update command
goes out with the command's secure settings as they came. -/
theorem update_keeps_stored_keys {σ : Type} (env : Env σ) (w : World σ) (c : ReqContext)
    (cmd : UpdateAlertNotificationCommand) (ch : AlertNotification) (s : σ) :
    (cmd.SecureSettings ≠ [] →
      env.handle (fetchById { cmd with OrgId := c.OrgId }) w.store = (Except.ok (some ch), s) →
      ∃ merged rest,
        (UpdateAlertNotification env c cmd w).2.log
          = w.log ++ [fetchById { cmd with OrgId := c.OrgId },
              Msg.UpdateAlertNotificationCommand
                { cmd with OrgId := c.OrgId, SecureSettings := merged }] ++ rest ∧
        (∀ k v, cmd.SecureSettings.get k = some v → merged.get k = some v) ∧
        ∀ k v, (env.Decrypt ch.SecureSettings).get k = some v →
          ∃ v', merged.get k = some v') ∧
    (cmd.SecureSettings = [] →
      ∃ rest,
        (UpdateAlertNotification env c cmd w).2.log
          = w.log ++ [Msg.UpdateAlertNotificationCommand { cmd with OrgId := c.OrgId }]
              ++ rest) := by
  constructor
  · intro hne hq
    refine ⟨mergeSecureSettings (env.Decrypt ch.SecureSettings) cmd.SecureSettings, ?_⟩
    have hkeys : ∀ k v, (env.Decrypt ch.SecureSettings).get k = some v →
        ∃ v', (mergeSecureSettings (env.Decrypt ch.SecureSettings) cmd.SecureSettings).get k
          = some v' := by
      intro k v hk
      rw [mergeSecureSettings_get]
      cases hU : GoMap.get cmd.SecureSettings k with
      | some x => exact ⟨x, rfl⟩
      | none => exact ⟨v, hk⟩
    have hown : ∀ k v, cmd.SecureSettings.get k = some v →
        (mergeSecureSettings (env.Decrypt ch.SecureSettings) cmd.SecureSettings).get k
          = some v := (mergeSecureSettings_extends _ _).1
    unfold UpdateAlertNotification
    simp only []
    rw [fillWithSecureSettingsData_found env w { cmd with OrgId := c.OrgId } ch s hne hq]
    simp only [Dispatch]
    rcases hupd : env.handle (Msg.UpdateAlertNotificationCommand
        { cmd with OrgId := c.OrgId,
                   SecureSettings :=
                    mergeSecureSettings (env.Decrypt ch.SecureSettings) cmd.SecureSettings })
        s with ⟨r, s2⟩
    cases r with
    | error err =>
      refine ⟨[], ?_, hown, hkeys⟩
      by_cases hnf : isErrAlertNotificationNotFound err = true <;>
        simp [hupd, hnf, fetchById]
    | ok res =>
      refine ⟨[Msg.GetAlertNotificationsQuery c.OrgId cmd.Id], ?_, hown, hkeys⟩
      rcases hget : env.handle (Msg.GetAlertNotificationsQuery c.OrgId cmd.Id) s2
        with ⟨r2, s3⟩
      cases r2 <;> simp [hupd, hget, fetchById]
  · intro hempty
    unfold UpdateAlertNotification
    simp only []
    rw [fillWithSecureSettingsData_empty env w { cmd with OrgId := c.OrgId } hempty]
    simp only [Dispatch]
    rcases hupd : env.handle (Msg.UpdateAlertNotificationCommand { cmd with OrgId := c.OrgId })
        w.store with ⟨r, s2⟩
    cases r with
    | error err =>
      refine ⟨[], ?_⟩
      by_cases hnf : isErrAlertNotificationNotFound err = true <;> simp [hupd, hnf]
    | ok res =>
      refine ⟨[Msg.GetAlertNotificationsQuery c.OrgId cmd.Id], ?_⟩
      rcases hget : env.handle (Msg.GetAlertNotificationsQuery c.OrgId cmd.Id) s2
        with ⟨r2, s3⟩
      cases r2 <;> simp [hupd, hget]

/-- C2 amended, at a concrete input: stored `a:1, b:2`, update `a:9`; the update command
dispatched carries `a:9, b:2`. -/
theorem update_keeps_stored_keys_witness :
    (∃ merged rest,
      (UpdateAlertNotification demoEnv demoReq demoUpdate demoWorld).2.log
        = demoWorld.log ++ [fetchById { demoUpdate with OrgId := demoReq.OrgId },
            Msg.UpdateAlertNotificationCommand
              { demoUpdate with OrgId := demoReq.OrgId, SecureSettings := merged }] ++ rest ∧
      (∀ k v, demoUpdate.SecureSettings.get k = some v → merged.get k = some v) ∧
      ∀ k v, (demoEnv.Decrypt demoChannel.SecureSettings).get k = some v →
        ∃ v', merged.get k = some v') ∧
    (UpdateAlertNotification demoEnv demoReq demoUpdate demoWorld).2.log
      = [Msg.GetAlertNotificationsQuery 1 1,
         Msg.UpdateAlertNotificationCommand
          { demoUpdate with SecureSettings := [("a", "9"), ("b", "2")] },
         Msg.GetAlertNotificationsQuery 1 1] ∧
    (∃ rest,
      (UpdateAlertNotification demoEnv demoReq demoUpdateEmpty demoWorld).2.log
        = demoWorld.log ++
            [Msg.UpdateAlertNotificationCommand { demoUpdateEmpty with OrgId := demoReq.OrgId }]
            ++ rest) :=
  ⟨(update_keeps_stored_keys demoEnv demoWorld demoReq demoUpdate demoChannel demoStore).1
      (by decide) (by rfl),
   by rfl,
   (update_keeps_stored_keys demoEnv demoWorld demoReq demoUpdateEmpty demoChannel
      demoStore).2 (by rfl)⟩

/-! ## Pause: theorems -/

theorem PauseAlert_permitted {σ : Type} (env : Env σ) (c : ReqContext)
    (dto : dtos.PauseAlertCommand) (w : World σ) (alert : Alert) (s1 : σ)
    (hfetch : env.handle (Msg.GetAlertByIdQuery (c.ParamsInt64 "alertId")) w.store
      = (Except.ok (some alert), s1))
    (hperm : env.CanEdit alert.DashboardId c.OrgId c.SignedInUser s1 = Except.ok true) :
    PauseAlert env c dto w =
      if alert.State ≠ AlertStatePaused ∧ dto.Paused = false then
        (some (Response.JSON 200 (Body.result (alreadyBody (c.ParamsInt64 "alertId") false))),
         { store := s1, log := w.log ++ [Msg.GetAlertByIdQuery (c.ParamsInt64 "alertId")] })
      else if alert.State = AlertStatePaused ∧ dto.Paused = true then
        (some (Response.JSON 200 (Body.result (alreadyBody (c.ParamsInt64 "alertId") true))),
         { store := s1, log := w.log ++ [Msg.GetAlertByIdQuery (c.ParamsInt64 "alertId")] })
      else
        match env.handle (Msg.PauseAlertCommand (pauseCommand c dto)) s1 with
        | (Except.error err, s2) =>
          (some (Response.Error 500 "" (some err)),
           { store := s2,
             log := w.log ++ [Msg.GetAlertByIdQuery (c.ParamsInt64 "alertId"),
               Msg.PauseAlertCommand (pauseCommand c dto)] })
        | (Except.ok _, s2) =>
          (some (Response.JSON 200
            (Body.result (changedBody (c.ParamsInt64 "alertId") dto.Paused))),
           { store := s2,
             log := w.log ++ [Msg.GetAlertByIdQuery (c.ParamsInt64 "alertId"),
               Msg.PauseAlertCommand (pauseCommand c dto)] }) := by
  unfold PauseAlert
  simp only []
  rw [Dispatch_eq env _ w _ s1 hfetch]
  simp only [hperm]
  split
  · simp [alreadyBody, GoMap.set]
  · split
    · simp [alreadyBody, GoMap.set]
    · simp only [Dispatch, pauseCommand]
      rcases hcmd : env.handle (Msg.PauseAlertCommand
        { OrgId := c.OrgId, AlertIds := [c.ParamsInt64 "alertId"], Paused := dto.Paused }) s1
        with ⟨r, s2⟩
      cases r with
      | error err => simp
      | ok n => cases hP : dto.Paused <;> simp [changedBody, GoMap.set]

/-- C5: in `PauseAlert`, when the fetch and the permission check succeed: if the alert is
paused and `paused=true` is requested, only the fetch query is dispatched (no
`PauseAlertCommand`) and the 200 response reports state `paused` with the message
`Alert is already paused`; if the alert is in any other state and `paused=false` is
requested, only the fetch query is dispatched and the 200 response carries the message
`Alert is already un-paused`. -/
theorem PauseAlert_noop {σ : Type} (env : Env σ) (c : ReqContext)
    (dto : dtos.PauseAlertCommand) (w : World σ) (alert : Alert) (s1 : σ)
    (hfetch : env.handle (Msg.GetAlertByIdQuery (c.ParamsInt64 "alertId")) w.store
      = (Except.ok (some alert), s1))
    (hperm : env.CanEdit alert.DashboardId c.OrgId c.SignedInUser s1 = Except.ok true) :
    (alert.State = AlertStatePaused → dto.Paused = true →
      PauseAlert env c dto w =
        (some (Response.JSON 200 (Body.result
          [("alertId", JVal.int (c.ParamsInt64 "alertId")),
           ("state", JVal.str AlertStatePaused),
           ("message", JVal.str "Alert is already paused")])),
         { store := s1, log := w.log ++ [Msg.GetAlertByIdQuery (c.ParamsInt64 "alertId")] })) ∧
    (alert.State ≠ AlertStatePaused → dto.Paused = false →
      PauseAlert env c dto w =
        (some (Response.JSON 200 (Body.result
          [("alertId", JVal.int (c.ParamsInt64 "alertId")),
           ("state", JVal.str "un-paused"),
           ("message", JVal.str "Alert is already un-paused")])),
         { store := s1, log := w.log ++ [Msg.GetAlertByIdQuery (c.ParamsInt64 "alertId")] })) := by
  constructor
  · intro hS hP
    rw [PauseAlert_permitted env c dto w alert s1 hfetch hperm]
    simp [hS, hP, alreadyBody]
  · intro hS hP
    rw [PauseAlert_permitted env c dto w alert s1 hfetch hperm]
    simp [hS, hP, alreadyBody]

/-- C5, at concrete inputs: pausing the paused alert 2 and un-pausing the alert 1, which
is in state `ok`. -/
theorem PauseAlert_noop_witness :
    PauseAlert demoEnv demoReqAlert2 { AlertId := 2, Paused := true } demoWorld =
      (some (Response.JSON 200 (Body.result
        [("alertId", JVal.int 2), ("state", JVal.str "paused"),
         ("message", JVal.str "Alert is already paused")])),
       { store := demoStore, log := [Msg.GetAlertByIdQuery 2] }) ∧
    PauseAlert demoEnv demoReq { AlertId := 1, Paused := false } demoWorld =
      (some (Response.JSON 200 (Body.result
        [("alertId", JVal.int 1), ("state", JVal.str "un-paused"),
         ("message", JVal.str "Alert is already un-paused")])),
       { store := demoStore, log := [Msg.GetAlertByIdQuery 1] }) :=
  ⟨(PauseAlert_noop demoEnv demoReqAlert2 { AlertId := 2, Paused := true } demoWorld
      (demoAlert 2 10 AlertStatePaused) demoStore (by rfl) (by rfl)).1 (by rfl) (by rfl),
   (PauseAlert_noop demoEnv demoReq { AlertId := 1, Paused := false } demoWorld
      (demoAlert 1 10 "ok") demoStore (by rfl) (by rfl)).2 (by decide) (by rfl)⟩

/-- C6: in `PauseAlert`, when the fetch and the permission check succeed and the request
is in neither no-op case (the alert is paused and `paused=false` is requested, or it is not
paused and `paused=true` is requested): after the fetch query exactly one
`PauseAlertCommand` is dispatched, with the caller's organisation, the one alert id of the
request and `Paused` as requested; if its handler succeeds the response is 200 with state
`paused` for `paused=true` and `unknown` for `paused=false` and the message `Alert paused`
or `Alert un-paused`; if it fails with `e` the response is the error 500 carrying `e`. -/
theorem PauseAlert_dispatches {σ : Type} (env : Env σ) (c : ReqContext)
    (dto : dtos.PauseAlertCommand) (w : World σ) (alert : Alert) (s1 : σ)
    (hfetch : env.handle (Msg.GetAlertByIdQuery (c.ParamsInt64 "alertId")) w.store
      = (Except.ok (some alert), s1))
    (hperm : env.CanEdit alert.DashboardId c.OrgId c.SignedInUser s1 = Except.ok true)
    (hcase : (alert.State = AlertStatePaused ∧ dto.Paused = false) ∨
      (alert.State ≠ AlertStatePaused ∧ dto.Paused = true)) :
    (PauseAlert env c dto w).2.log =
      w.log ++ [Msg.GetAlertByIdQuery (c.ParamsInt64 "alertId"),
        Msg.PauseAlertCommand
          { OrgId := c.OrgId, AlertIds := [c.ParamsInt64 "alertId"], Paused := dto.Paused }] ∧
    (∀ n s2,
      env.handle (Msg.PauseAlertCommand
        { OrgId := c.OrgId, AlertIds := [c.ParamsInt64 "alertId"], Paused := dto.Paused }) s1
        = (Except.ok n, s2) →
      (PauseAlert env c dto w).1 =
        some (Response.JSON 200 (Body.result
          [("alertId", JVal.int (c.ParamsInt64 "alertId")),
           ("state", JVal.str (if dto.Paused then AlertStatePaused else AlertStateUnknown)),
           ("message", JVal.str (if dto.Paused then "Alert paused" else "Alert un-paused"))])) ∧
      (PauseAlert env c dto w).2.store = s2) ∧
    (∀ e s2,
      env.handle (Msg.PauseAlertCommand
        { OrgId := c.OrgId, AlertIds := [c.ParamsInt64 "alertId"], Paused := dto.Paused }) s1
        = (Except.error e, s2) →
      (PauseAlert env c dto w).1 = some (Response.Error 500 "" (some e))) := by
  have h1 : ¬ (alert.State ≠ AlertStatePaused ∧ dto.Paused = false) := by
    rcases hcase with ⟨hS, _⟩ | ⟨_, hP⟩
    · exact fun h => h.1 hS
    · intro h
      rw [hP] at h
      exact Bool.noConfusion h.2
  have h2 : ¬ (alert.State = AlertStatePaused ∧ dto.Paused = true) := by
    rcases hcase with ⟨_, hP⟩ | ⟨hS, _⟩
    · intro h
      rw [hP] at h
      exact Bool.noConfusion h.2
    · exact fun h => hS h.1
  rw [PauseAlert_permitted env c dto w alert s1 hfetch hperm, if_neg h1, if_neg h2]
  have hc : pauseCommand c dto =
      { OrgId := c.OrgId, AlertIds := [c.ParamsInt64 "alertId"], Paused := dto.Paused } := rfl
  rw [hc]
  rcases hcmd : env.handle (Msg.PauseAlertCommand
      { OrgId := c.OrgId, AlertIds := [c.ParamsInt64 "alertId"], Paused := dto.Paused }) s1
    with ⟨r, s2⟩
  cases r with
  | error err =>
    refine ⟨rfl, ?_, ?_⟩
    · intro n s2' h
      cases h
    · intro e s2' h
      cases h
      rfl
  | ok n =>
    refine ⟨rfl, ?_, ?_⟩
    · intro n' s2' h
      cases h
      exact ⟨rfl, rfl⟩
    · intro e s2' h
      cases h

/-- C6, at a concrete input: pausing alert 1, which is in state `ok`. -/
theorem PauseAlert_dispatches_witness :
    (PauseAlert demoEnv demoReq { AlertId := 1, Paused := true } demoWorld).2.log =
      [Msg.GetAlertByIdQuery 1,
       Msg.PauseAlertCommand { OrgId := 1, AlertIds := [1], Paused := true }] ∧
    (PauseAlert demoEnv demoReq { AlertId := 1, Paused := true } demoWorld).1 =
      some (Response.JSON 200 (Body.result
        [("alertId", JVal.int 1), ("state", JVal.str "paused"),
         ("message", JVal.str "Alert paused")])) ∧
    (PauseAlert demoEnvPauseFails demoReq { AlertId := 1, Paused := true } demoWorld).1 =
      some (Response.Error 500 "" (some (errorsNew "database is locked"))) :=
  ⟨(PauseAlert_dispatches demoEnv demoReq { AlertId := 1, Paused := true } demoWorld
      (demoAlert 1 10 "ok") demoStore (by rfl) (by rfl) (Or.inr ⟨by decide, rfl⟩)).1,
   ((PauseAlert_dispatches demoEnv demoReq { AlertId := 1, Paused := true } demoWorld
      (demoAlert 1 10 "ok") demoStore (by rfl) (by rfl) (Or.inr ⟨by decide, rfl⟩)).2.1
      1 _ (by rfl)).1,
   (PauseAlert_dispatches demoEnvPauseFails demoReq { AlertId := 1, Paused := true } demoWorld
      (demoAlert 1 10 "ok") demoStore (by rfl) (by rfl) (Or.inr ⟨by decide, rfl⟩)).2.2
      (errorsNew "database is locked") demoStore (by rfl)⟩

/-- C8: `PauseAllAlerts` dispatches exactly one `PauseAllAlertCommand` carrying the
requested flag and nothing else (no per-alert query), whatever the store holds; when the
handler succeeds and reports `n` alerts, the response is 200 with `alertsAffected = n` and
state `paused` for `paused=true`, and the placeholder `pending`, which is not `paused`,
for `paused=false`; when it fails the response is an error 500. -/
theorem PauseAllAlerts_dispatches_once {σ : Type} (env : Env σ)
    (dto : dtos.PauseAllAlertsCommand) (w : World σ) :
    (PauseAllAlerts env dto w).2.log
      = w.log ++ [Msg.PauseAllAlertCommand { Paused := dto.Paused }] ∧
    (∀ n s1,
      env.handle (Msg.PauseAllAlertCommand { Paused := dto.Paused }) w.store
        = (Except.ok n, s1) →
      (PauseAllAlerts env dto w).1 =
        Response.JSON 200 (Body.result
          [("state", JVal.str (if dto.Paused then AlertStatePaused else AlertStatePending)),
           ("message", JVal.str (if dto.Paused then "alerts paused" else "alerts un paused")),
           ("alertsAffected", JVal.int n)])) ∧
    (∀ e s1,
      env.handle (Msg.PauseAllAlertCommand { Paused := dto.Paused }) w.store
        = (Except.error e, s1) →
      (PauseAllAlerts env dto w).1 = Response.Error 500 "Failed to pause alerts" (some e)) ∧
    AlertStatePending ≠ AlertStatePaused := by
  unfold PauseAllAlerts
  simp only [Dispatch]
  rcases hcmd : env.handle (Msg.PauseAllAlertCommand { Paused := dto.Paused }) w.store
    with ⟨r, s2⟩
  cases r with
  | error err =>
    refine ⟨rfl, ?_, ?_, by decide⟩
    · intro n s1 h
      cases h
    · intro e s1 h
      cases h
      rfl
  | ok n =>
    refine ⟨rfl, ?_, ?_, by decide⟩
    · intro n' s1 h
      cases h
      cases hP : dto.Paused <;> simp
    · intro e s1 h
      cases h

/-- C8, at a concrete input: `paused=true` against the store with seven alerts gives
`alertsAffected = 7` and state `paused`, after one batch command. -/
theorem PauseAllAlerts_seven :
    PauseAllAlerts demoEnv { Paused := true } demoWorld =
      (Response.JSON 200 (Body.result
        [("state", JVal.str "paused"), ("message", JVal.str "alerts paused"),
         ("alertsAffected", JVal.int 7)]),
       { store := (demoHandle (Msg.PauseAllAlertCommand { Paused := true }) demoStore).2,
         log := [Msg.PauseAllAlertCommand { Paused := true }] }) ∧
    (PauseAllAlerts demoEnv { Paused := true } demoWorld).2.log
      = [Msg.PauseAllAlertCommand { Paused := true }] ∧
    (PauseAllAlerts demoEnv { Paused := true } demoWorld).1 =
      Response.JSON 200 (Body.result
        [("state", JVal.str "paused"), ("message", JVal.str "alerts paused"),
         ("alertsAffected", JVal.int 7)]) :=
  ⟨by rfl,
   (PauseAllAlerts_dispatches_once demoEnv { Paused := true } demoWorld).1,
   (PauseAllAlerts_dispatches_once demoEnv { Paused := true } demoWorld).2.1 7 _ (by rfl)⟩

/-- C7, refuted as stated: pausing alert 1 (state `ok`) twice with `paused=true` answers
`Alert paused` the first time and `Alert is already paused` the second; un-pausing the
paused alert 2 twice answers state `unknown`, `Alert un-paused` the first time and state
`un-paused`, `Alert is already un-paused` the second. The second response differs from the
first in both runs. -/
theorem PauseAlert_second_response_differs :
    (PauseAlert demoEnv demoReq { AlertId := 1, Paused := true } demoWorld).1
      = some (Response.JSON 200 (Body.result
          [("alertId", JVal.int 1), ("state", JVal.str "paused"),
           ("message", JVal.str "Alert paused")])) ∧
    (PauseAlert demoEnv demoReq { AlertId := 1, Paused := true }
        (PauseAlert demoEnv demoReq { AlertId := 1, Paused := true } demoWorld).2).1
      = some (Response.JSON 200 (Body.result
          [("alertId", JVal.int 1), ("state", JVal.str "paused"),
           ("message", JVal.str "Alert is already paused")])) ∧
    (PauseAlert demoEnv demoReqAlert2 { AlertId := 2, Paused := false } demoWorld).1
      = some (Response.JSON 200 (Body.result
          [("alertId", JVal.int 2), ("state", JVal.str "unknown"),
           ("message", JVal.str "Alert un-paused")])) ∧
    (PauseAlert demoEnv demoReqAlert2 { AlertId := 2, Paused := false }
        (PauseAlert demoEnv demoReqAlert2 { AlertId := 2, Paused := false } demoWorld).2).1
      = some (Response.JSON 200 (Body.result
          [("alertId", JVal.int 2), ("state", JVal.str "un-paused"),
           ("message", JVal.str "Alert is already un-paused")])) ∧
    (PauseAlert demoEnv demoReq { AlertId := 1, Paused := true }
        (PauseAlert demoEnv demoReq { AlertId := 1, Paused := true } demoWorld).2).1
      ≠ (PauseAlert demoEnv demoReq { AlertId := 1, Paused := true } demoWorld).1 ∧
    (PauseAlert demoEnv demoReqAlert2 { AlertId := 2, Paused := false }
        (PauseAlert demoEnv demoReqAlert2 { AlertId := 2, Paused := false } demoWorld).2).1
      ≠ (PauseAlert demoEnv demoReqAlert2 { AlertId := 2, Paused := false } demoWorld).1 := by
  refine ⟨by rfl, by rfl, by rfl, by rfl, by decide, by decide⟩

/-- C7, amended: over a store in which fetching the alert changes nothing and a successful
state-change command leaves the alert fetchable (by a fetch that changes nothing),
editable, and paused exactly when `paused=true` was requested: if a call of `PauseAlert`
answers 200, a second call with the same flag dispatches the fetch query only (no
state-change command) and answers 200 with the no-op body (`Alert is already paused` or
`Alert is already un-paused`); this is the first call's response whenever the first call
dispatched no state-change command either; when the first call did dispatch the state
change, its response is the 200 with `Alert paused` (state `paused`) or `Alert un-paused`
(state `unknown`), which differs from the second call's. -/
theorem PauseAlert_twice {σ : Type} (env : Env σ) (c : ReqContext)
    (dto : dtos.PauseAlertCommand) (w : World σ) (b1 : Body)
    (hro : (env.handle (Msg.GetAlertByIdQuery (c.ParamsInt64 "alertId")) w.store).2
      = w.store)
    (hset : ∀ n s2,
      env.handle (Msg.PauseAlertCommand (pauseCommand c dto)) w.store = (Except.ok n, s2) →
      ∃ a, env.handle (Msg.GetAlertByIdQuery (c.ParamsInt64 "alertId")) s2
          = (Except.ok (some a), s2) ∧
        (a.State = AlertStatePaused ↔ dto.Paused = true) ∧
        env.CanEdit a.DashboardId c.OrgId c.SignedInUser s2 = Except.ok true)
    (hfirst : (PauseAlert env c dto w).1 = some (Response.JSON 200 b1)) :
    PauseAlert env c dto (PauseAlert env c dto w).2 =
      (some (Response.JSON 200
        (Body.result (alreadyBody (c.ParamsInt64 "alertId") dto.Paused))),
       { store := (PauseAlert env c dto w).2.store,
         log := (PauseAlert env c dto w).2.log
           ++ [Msg.GetAlertByIdQuery (c.ParamsInt64 "alertId")] }) ∧
    ((PauseAlert env c dto w).2.log
        = w.log ++ [Msg.GetAlertByIdQuery (c.ParamsInt64 "alertId")] →
      (PauseAlert env c dto (PauseAlert env c dto w).2).1 = (PauseAlert env c dto w).1) ∧
    ((PauseAlert env c dto w).2.log
        ≠ w.log ++ [Msg.GetAlertByIdQuery (c.ParamsInt64 "alertId")] →
      (PauseAlert env c dto w).2.log
        = w.log ++ [Msg.GetAlertByIdQuery (c.ParamsInt64 "alertId"),
            Msg.PauseAlertCommand (pauseCommand c dto)] ∧
      (PauseAlert env c dto w).1
        = some (Response.JSON 200
            (Body.result (changedBody (c.ParamsInt64 "alertId") dto.Paused))) ∧
      (PauseAlert env c dto (PauseAlert env c dto w).2).1 ≠ (PauseAlert env c dto w).1) := by
  have hbody : ∀ P : Bool, Body.result (alreadyBody (c.ParamsInt64 "alertId") P)
      ≠ Body.result (changedBody (c.ParamsInt64 "alertId") P) := by
    intro P h
    cases P <;> simp [alreadyBody, changedBody] at h
  rcases hq : env.handle (Msg.GetAlertByIdQuery (c.ParamsInt64 "alertId")) w.store
    with ⟨r, s1⟩
  have hs1 : s1 = w.store := by
    have := hro
    rw [hq] at this
    exact this
  subst hs1
  cases r with
  | error err =>
    exfalso
    unfold PauseAlert at hfirst
    simp [Dispatch, hq] at hfirst
  | ok oa =>
    cases oa with
    | none =>
      exfalso
      unfold PauseAlert at hfirst
      simp [Dispatch, hq] at hfirst
    | some alert =>
      cases hperm : env.CanEdit alert.DashboardId c.OrgId c.SignedInUser w.store with
      | error err =>
        exfalso
        unfold PauseAlert at hfirst
        simp [Dispatch, hq, hperm] at hfirst
      | ok b =>
        cases b with
        | false =>
          exfalso
          unfold PauseAlert at hfirst
          simp [Dispatch, hq, hperm] at hfirst
        | true =>
          have hP := PauseAlert_permitted env c dto w alert w.store hq hperm
          by_cases h1 : alert.State ≠ AlertStatePaused ∧ dto.Paused = false
          · rw [if_pos h1] at hP
            have hP2 := PauseAlert_permitted env c dto (PauseAlert env c dto w).2 alert
              w.store (by rw [hP]; exact hq) hperm
            rw [if_pos h1] at hP2
            rw [hP2, hP, h1.2]
            exact ⟨rfl, fun _ => rfl, fun hne => absurd rfl hne⟩
          · by_cases h2 : alert.State = AlertStatePaused ∧ dto.Paused = true
            · rw [if_neg h1, if_pos h2] at hP
              have hP2 := PauseAlert_permitted env c dto (PauseAlert env c dto w).2 alert
                w.store (by rw [hP]; exact hq) hperm
              rw [if_neg h1, if_pos h2] at hP2
              rw [hP2, hP, h2.2]
              exact ⟨rfl, fun _ => rfl, fun hne => absurd rfl hne⟩
            · rw [if_neg h1, if_neg h2] at hP
              rcases hcmd : env.handle (Msg.PauseAlertCommand (pauseCommand c dto)) w.store
                with ⟨r2, s2⟩
              rw [hcmd] at hP
              cases r2 with
              | error err =>
                exfalso
                rw [hP] at hfirst
                simp at hfirst
              | ok n =>
                simp only [] at hP
                obtain ⟨a, hq2, hst, hpa⟩ := hset n s2 hcmd
                have hP2 := PauseAlert_permitted env c dto (PauseAlert env c dto w).2 a
                  s2 (by rw [hP]; exact hq2) hpa
                have hsecond : PauseAlert env c dto (PauseAlert env c dto w).2 =
                    (some (Response.JSON 200
                      (Body.result (alreadyBody (c.ParamsInt64 "alertId") dto.Paused))),
                     { store := (PauseAlert env c dto w).2.store,
                       log := (PauseAlert env c dto w).2.log
                         ++ [Msg.GetAlertByIdQuery (c.ParamsInt64 "alertId")] }) := by
                  rw [hP2]
                  cases hPd : dto.Paused with
                  | true =>
                    have hS : a.State = AlertStatePaused := hst.mpr hPd
                    rw [hP]
                    simp [hS, hPd]
                  | false =>
                    have hS : a.State ≠ AlertStatePaused := by
                      intro h
                      have := hst.mp h
                      rw [hPd] at this
                      exact Bool.noConfusion this
                    rw [hP]
                    simp [hS, hPd]
                refine ⟨hsecond, ?_, ?_⟩
                · intro hlog
                  exfalso
                  rw [hP] at hlog
                  have hlen := congrArg List.length hlog
                  simp at hlen
                · intro _
                  refine ⟨?_, ?_, ?_⟩
                  · rw [hP]
                  · rw [hP]
                  · rw [hsecond, hP]
                    intro h
                    injection h with h
                    injection h with _ h
                    exact hbody dto.Paused h

/-- C7 amended, at concrete inputs: pausing alert 1 twice (the first call changes the
state), and pausing the already paused alert 2 twice (both calls are no-ops). -/
theorem PauseAlert_twice_witness :
    PauseAlert demoEnv demoReq { AlertId := 1, Paused := true }
        (PauseAlert demoEnv demoReq { AlertId := 1, Paused := true } demoWorld).2 =
      (some (Response.JSON 200 (Body.result
        [("alertId", JVal.int 1), ("state", JVal.str "paused"),
         ("message", JVal.str "Alert is already paused")])),
       { store := (PauseAlert demoEnv demoReq { AlertId := 1, Paused := true } demoWorld).2.store,
         log := [Msg.GetAlertByIdQuery 1,
           Msg.PauseAlertCommand { OrgId := 1, AlertIds := [1], Paused := true },
           Msg.GetAlertByIdQuery 1] }) ∧
    (PauseAlert demoEnv demoReqAlert2 { AlertId := 2, Paused := true }
        (PauseAlert demoEnv demoReqAlert2 { AlertId := 2, Paused := true } demoWorld).2).1
      = (PauseAlert demoEnv demoReqAlert2 { AlertId := 2, Paused := true } demoWorld).1 ∧
    ((PauseAlert demoEnv demoReq { AlertId := 1, Paused := true } demoWorld).2.log
        = [Msg.GetAlertByIdQuery 1,
           Msg.PauseAlertCommand { OrgId := 1, AlertIds := [1], Paused := true }] ∧
      (PauseAlert demoEnv demoReq { AlertId := 1, Paused := true } demoWorld).1
        = some (Response.JSON 200 (Body.result
            [("alertId", JVal.int 1), ("state", JVal.str "paused"),
             ("message", JVal.str "Alert paused")])) ∧
      (PauseAlert demoEnv demoReq { AlertId := 1, Paused := true }
          (PauseAlert demoEnv demoReq { AlertId := 1, Paused := true } demoWorld).2).1
        ≠ (PauseAlert demoEnv demoReq { AlertId := 1, Paused := true } demoWorld).1) :=
  ⟨(PauseAlert_twice demoEnv demoReq { AlertId := 1, Paused := true } demoWorld
      (Body.result (changedBody 1 true)) (by rfl)
      (fun n s2 h => by
        have hs2 : (demoHandle (Msg.PauseAlertCommand
            { OrgId := 1, AlertIds := [1], Paused := true }) demoStore).2 = s2 :=
          congrArg Prod.snd h
        subst hs2
        exact ⟨demoAlert 1 10 AlertStatePaused, by rfl, by decide, by rfl⟩)
      (by rfl)).1,
   (PauseAlert_twice demoEnv demoReqAlert2 { AlertId := 2, Paused := true } demoWorld
      (Body.result (alreadyBody 2 true)) (by rfl)
      (fun n s2 h => by
        have hs2 : (demoHandle (Msg.PauseAlertCommand
            { OrgId := 1, AlertIds := [2], Paused := true }) demoStore).2 = s2 :=
          congrArg Prod.snd h
        subst hs2
        exact ⟨demoAlert 2 10 AlertStatePaused, by rfl, by decide, by rfl⟩)
      (by rfl)).2.1 (by rfl),
   (PauseAlert_twice demoEnv demoReq { AlertId := 1, Paused := true } demoWorld
      (Body.result (changedBody 1 true)) (by rfl)
      (fun n s2 h => by
        have hs2 : (demoHandle (Msg.PauseAlertCommand
            { OrgId := 1, AlertIds := [1], Paused := true }) demoStore).2 = s2 :=
          congrArg Prod.snd h
        subst hs2
        exact ⟨demoAlert 1 10 AlertStatePaused, by rfl, by decide, by rfl⟩)
      (by rfl)).2.2 (by decide)⟩

/-! ## Evaluation: theorems -/

theorem String.ne_of_length_lt (a b : String) (h : a.length < b.length) : b ≠ a := by
  intro hab
  rw [hab] at h
  exact Nat.lt_irrefl _ h

/-- C9: for `EvaluateAlert` and `EvaluateAlertById`, when the dispatch of the evaluation
command returns no error and leaves the result nil, the response is the error 500 carrying
the error `results not found`; it is no 200 response, and it is not the response of a
failed dispatch, which is the error 500 with the message `Failed to check alert` carrying
the handler's error: the two messages always differ. -/
theorem evaluate_nil_result_is_failure {σ : Type} (env : Env σ) (c : ReqContext)
    (dto : dtos.EvaluateAlertRequestCommand) (dtoId : dtos.EvaluateAlertByIdCommand)
    (w : World σ) :
    (∀ s1,
      env.handle (Msg.EvaluateAlertCommand (alertCheckCommand c dto)) w.store
        = (Except.ok none, s1) →
      ∃ msg,
        (EvaluateAlert env c dto w).1
          = some (Response.Error 500 msg (some (errorsNew "results not found"))) ∧
        (∀ body, (EvaluateAlert env c dto w).1 ≠ some (Response.JSON 200 body)) ∧
        msg ≠ "Failed to check alert" ∧
        ∀ e, (EvaluateAlert env c dto w).1
          ≠ some (Response.Error 500 "Failed to check alert" e)) ∧
    (∀ e s1,
      env.handle (Msg.EvaluateAlertCommand (alertCheckCommand c dto)) w.store
        = (Except.error e, s1) →
      (EvaluateAlert env c dto w).1
        = some (Response.Error 500 "Failed to check alert" (some e))) ∧
    (∀ s1,
      env.handle (Msg.EvaluateAlertByIdCommand (evaluateAlertByIdCommand c dtoId)) w.store
        = (Except.ok none, s1) →
      ∃ msg,
        (EvaluateAlertById env c dtoId w).1
          = some (Response.Error 500 msg (some (errorsNew "results not found"))) ∧
        (∀ body, (EvaluateAlertById env c dtoId w).1 ≠ some (Response.JSON 200 body)) ∧
        msg ≠ "Failed to check alert" ∧
        ∀ e, (EvaluateAlertById env c dtoId w).1
          ≠ some (Response.Error 500 "Failed to check alert" e)) ∧
    (∀ e s1,
      env.handle (Msg.EvaluateAlertByIdCommand (evaluateAlertByIdCommand c dtoId)) w.store
        = (Except.error e, s1) →
      (EvaluateAlertById env c dtoId w).1
        = some (Response.Error 500 "Failed to check alert" (some e))) := by
  refine ⟨?_, ?_, ?_, ?_⟩
  · intro s1 h
    have hmsg : "Failed to check alert: " ++ env.sprintf_d_Alert dto.Alert ++ ", date: "
        ++ env.sprintf_s_Time dto.EvalTime ≠ "Failed to check alert" := by
      apply String.ne_of_length_lt
      simp only [String.length_append]
      have h21 : "Failed to check alert".length = 21 := by decide
      have h23 : "Failed to check alert: ".length = 23 := by decide
      omega
    have hres : (EvaluateAlert env c dto w).1 = some (Response.Error 500
        ("Failed to check alert: " ++ env.sprintf_d_Alert dto.Alert ++ ", date: "
          ++ env.sprintf_s_Time dto.EvalTime) (some (errorsNew "results not found"))) := by
      unfold EvaluateAlert
      rw [Dispatch_eq env _ w _ s1 h]
    refine ⟨_, hres, ?_, hmsg, ?_⟩
    · intro body hb
      rw [hres] at hb
      cases hb
    · intro e he
      rw [hres] at he
      injection he with he
      injection he with _ hm _
      exact hmsg hm
  · intro e s1 h
    unfold EvaluateAlert
    rw [Dispatch_eq env _ w _ s1 h]
  · intro s1 h
    have hmsg : "Failed to check alert by Id: " ++ toString dtoId.AlertId ++ ", date: "
        ++ env.sprintf_s_Time dtoId.EvalTime ≠ "Failed to check alert" := by
      apply String.ne_of_length_lt
      simp only [String.length_append]
      have h21 : "Failed to check alert".length = 21 := by decide
      have h29 : "Failed to check alert by Id: ".length = 29 := by decide
      omega
    have hres : (EvaluateAlertById env c dtoId w).1 = some (Response.Error 500
        ("Failed to check alert by Id: " ++ toString dtoId.AlertId ++ ", date: "
          ++ env.sprintf_s_Time dtoId.EvalTime) (some (errorsNew "results not found"))) := by
      unfold EvaluateAlertById
      rw [Dispatch_eq env _ w _ s1 h]
    refine ⟨_, hres, ?_, hmsg, ?_⟩
    · intro body hb
      rw [hres] at hb
      cases hb
    · intro e he
      rw [hres] at he
      injection he with he
      injection he with _ hm _
      exact hmsg hm
  · intro e s1 h
    unfold EvaluateAlertById
    rw [Dispatch_eq env _ w _ s1 h]

/-- C9, at concrete inputs: evaluations for which the in-memory handlers yield no result,
and evaluations they reject. -/
theorem evaluate_nil_result_is_failure_witness :
    (EvaluateAlert demoEnv demoReq (demoEvaluate 60) demoWorld).1
      = some (Response.Error 500 "Failed to check alert: 1, date: 5"
          (some (errorsNew "results not found"))) ∧
    (EvaluateAlert demoEnv demoReq (demoEvaluate 0) demoWorld).1
      = some (Response.Error 500 "Failed to check alert"
          (some (errorsNew "Alert validation error: frequency"))) ∧
    (EvaluateAlertById demoEnv demoReq { AlertId := 3, EvalTime := 5 } demoWorld).1
      = some (Response.Error 500 "Failed to check alert by Id: 3, date: 5"
          (some (errorsNew "results not found"))) ∧
    (EvaluateAlertById demoEnv demoReq { AlertId := 0, EvalTime := 5 } demoWorld).1
      = some (Response.Error 500 "Failed to check alert"
          (some (errorsNew "Could not find alert"))) ∧
    (∃ msg,
      (EvaluateAlert demoEnv demoReq (demoEvaluate 60) demoWorld).1
        = some (Response.Error 500 msg (some (errorsNew "results not found"))) ∧
      (∀ body, (EvaluateAlert demoEnv demoReq (demoEvaluate 60) demoWorld).1
        ≠ some (Response.JSON 200 body)) ∧
      msg ≠ "Failed to check alert" ∧
      ∀ e, (EvaluateAlert demoEnv demoReq (demoEvaluate 60) demoWorld).1
        ≠ some (Response.Error 500 "Failed to check alert" e)) :=
  ⟨by rfl,
   (evaluate_nil_result_is_failure demoEnv demoReq (demoEvaluate 0)
      { AlertId := 0, EvalTime := 5 } demoWorld).2.1 _ demoStore (by rfl),
   by rfl,
   (evaluate_nil_result_is_failure demoEnv demoReq (demoEvaluate 0)
      { AlertId := 0, EvalTime := 5 } demoWorld).2.2.2 _ demoStore (by rfl),
   (evaluate_nil_result_is_failure demoEnv demoReq (demoEvaluate 60)
      { AlertId := 3, EvalTime := 5 } demoWorld).1 demoStore (by rfl)⟩

/-! ## Inline rule test: theorems -/

/-- C11, refuted as stated: for panel 5 of a dashboard whose member `id` is the number 0,
the read of the id returns 0 and no error, so the guard of `AlertTest` is passed and the
evaluation engine is invoked, once, with the request's arguments; the response is not the
guard's 400 but whatever follows from the engine's answer (here its validation error, as
422). -/
theorem AlertTest_id_zero_reaches_engine :
    demoTestIdZero.Dashboard.get "id" = some (JsonMember.number 0) ∧
    demoTestIdZero.PanelId = 5 ∧
    demoServer.GetIdInt64 demoTestIdZero.Dashboard = (0, none) ∧
    (demoServer.AlertTest demoReq demoTestIdZero demoWorld).engineCalls
      = [{ OrgId := 1, Dashboard := demoTestIdZero.Dashboard, PanelId := 5,
           User := { UserId := 1, OrgId := 1 }, Headers := { RequestHeaders := [] } }] ∧
    (demoServer.AlertTest demoReq demoTestIdZero demoWorld).engineCalls ≠ [] ∧
    (demoServer.AlertTest demoReq demoTestIdZero demoWorld).response
      = some (Response.Error 422 "Alert validation error: dashboard id" none) ∧
    (demoServer.AlertTest demoReq demoTestIdZero demoWorld).response
      ≠ some (Response.Error 400
          "The dashboard needs to be saved at least once before you can test an alert rule"
          none) := by
  refine ⟨by rfl, by rfl, by rfl, by rfl, by decide, by rfl, by decide⟩

/-- C11, amended: when the read of the dashboard's member `id` as an integer fails (a
dashboard that carries no numeric id), `AlertTest` returns the error 400 `The dashboard
needs to be saved at least once before you can test an alert rule` with the world
unchanged and no call to the evaluation engine: nothing is dispatched. When the read
succeeds, whatever the value read (0 included), the engine is invoked exactly once with the
caller's organisation, the dashboard, the panel id, the user and the request headers, and
a validation error of the engine is answered with 422 and that error's text. -/
theorem AlertTest_guard {σ : Type} (hs : HTTPServer σ) (c : ReqContext)
    (dto : dtos.AlertTestCommand) (w : World σ) :
    (∀ idErr, (hs.GetIdInt64 dto.Dashboard).2 = some idErr →
      (hs.AlertTest c dto w).response
        = some (Response.Error 400
            "The dashboard needs to be saved at least once before you can test an alert rule"
            none) ∧
      (hs.AlertTest c dto w).world = w ∧
      (hs.AlertTest c dto w).engineCalls = []) ∧
    ((hs.GetIdInt64 dto.Dashboard).2 = none →
      (hs.AlertTest c dto w).engineCalls = [alertTestCall c dto] ∧
      (hs.AlertTest c dto w).world = (hs.AlertEngine (alertTestCall c dto) w).2 ∧
      ∀ e w1 v, hs.AlertEngine (alertTestCall c dto) w = (Except.error e, w1) →
        e.validationErr = some v →
        (hs.AlertTest c dto w).response = some (Response.Error 422 v.text none)) := by
  constructor
  · intro idErr hid
    unfold HTTPServer.AlertTest
    rw [hid]
    exact ⟨rfl, rfl, rfl⟩
  · intro hid
    unfold HTTPServer.AlertTest
    rw [hid]
    simp only []
    rcases heng : hs.AlertEngine (alertTestCall c dto) w with ⟨r, w1⟩
    cases r with
    | error e =>
      simp only []
      cases hv : e.validationErr with
      | some v0 =>
        simp only []
        refine ⟨trivial, trivial, ?_⟩
        intro e' w1' v h hv'
        cases h
        rw [hv] at hv'
        cases hv'
        rfl
      | none =>
        simp only []
        by_cases hden : e.isErrDataSourceAccessDenied = true
        · rw [if_pos hden]
          refine ⟨rfl, rfl, ?_⟩
          intro e' w1' v h hv'
          cases h
          rw [hv] at hv'
          cases hv'
        · rw [if_neg hden]
          refine ⟨rfl, rfl, ?_⟩
          intro e' w1' v h hv'
          cases h
          rw [hv] at hv'
          cases hv'
    | ok res =>
      cases res with
      | none =>
        refine ⟨rfl, rfl, ?_⟩
        intro e' w1' v h
        cases h
      | some ctx =>
        refine ⟨rfl, rfl, ?_⟩
        intro e' w1' v h
        cases h

/-- C11 amended, at concrete inputs: panel 5 of a dashboard without a member `id`, of a
dashboard whose `id` is null, and of a dashboard whose `id` is the number 0. -/
theorem AlertTest_guard_witness :
    ((demoServer.AlertTest demoReq demoTestNoId demoWorld).response
        = some (Response.Error 400
            "The dashboard needs to be saved at least once before you can test an alert rule"
            none) ∧
      (demoServer.AlertTest demoReq demoTestNoId demoWorld).world = demoWorld ∧
      (demoServer.AlertTest demoReq demoTestNoId demoWorld).engineCalls = []) ∧
    ((demoServer.AlertTest demoReq demoTestNullId demoWorld).response
        = some (Response.Error 400
            "The dashboard needs to be saved at least once before you can test an alert rule"
            none) ∧
      (demoServer.AlertTest demoReq demoTestNullId demoWorld).world = demoWorld ∧
      (demoServer.AlertTest demoReq demoTestNullId demoWorld).engineCalls = []) ∧
    (demoServer.AlertTest demoReq demoTestIdZero demoWorld).engineCalls
      = [alertTestCall demoReq demoTestIdZero] ∧
    (demoServer.AlertTest demoReq demoTestIdZero demoWorld).response
      = some (Response.Error 422 "Alert validation error: dashboard id" none) :=
  ⟨(AlertTest_guard demoServer demoReq demoTestNoId demoWorld).1
      (errorsNew "invalid value type") (by rfl),
   (AlertTest_guard demoServer demoReq demoTestNullId demoWorld).1
      (errorsNew "invalid value type") (by rfl),
   ((AlertTest_guard demoServer demoReq demoTestIdZero demoWorld).2 (by rfl)).1,
   ((AlertTest_guard demoServer demoReq demoTestIdZero demoWorld).2 (by rfl)).2.2
      _ demoWorld (errorsNew "Alert validation error: dashboard id") (by rfl) (by rfl)⟩

/-! ## Duration rendering: theorems -/

theorem roundHalfEven_nearest (n D : Nat) (hD : 0 < D) :
    |(roundHalfEven n D : ℚ) - (n : ℚ) / (D : ℚ)| ≤ 1 / 2 ∧
    (|(roundHalfEven n D : ℚ) - (n : ℚ) / (D : ℚ)| = 1 / 2 → roundHalfEven n D % 2 = 0) := by
  have hDq : (0 : ℚ) < (D : ℚ) := by exact_mod_cast hD
  have hn : (n : ℚ) = (D : ℚ) * ((n / D : Nat) : ℚ) + ((n % D : Nat) : ℚ) := by
    exact_mod_cast (Nat.div_add_mod n D).symm
  have hv : (n : ℚ) / (D : ℚ) = ((n / D : Nat) : ℚ) + ((n % D : Nat) : ℚ) / (D : ℚ) := by
    rw [hn]
    field_simp
    ring
  have hr0 : (0 : ℚ) ≤ ((n % D : Nat) : ℚ) / (D : ℚ) := by positivity
  unfold roundHalfEven
  by_cases h1 : 2 * (n % D) < D
  · rw [if_pos h1, hv]
    have hlt : ((n % D : Nat) : ℚ) / (D : ℚ) < 1 / 2 := by
      rw [div_lt_iff₀ hDq]
      have : ((2 * (n % D) : Nat) : ℚ) < (D : ℚ) := by exact_mod_cast h1
      push_cast at this
      linarith
    have habs : |((n / D : Nat) : ℚ) - (((n / D : Nat) : ℚ) + ((n % D : Nat) : ℚ) / (D : ℚ))|
        = ((n % D : Nat) : ℚ) / (D : ℚ) := by
      rw [show ((n / D : Nat) : ℚ) - (((n / D : Nat) : ℚ) + ((n % D : Nat) : ℚ) / (D : ℚ))
        = -(((n % D : Nat) : ℚ) / (D : ℚ)) by ring, abs_neg, abs_of_nonneg hr0]
    rw [habs]
    exact ⟨le_of_lt hlt, fun h => absurd h (ne_of_lt hlt)⟩
  · rw [if_neg h1]
    have hmod : n % D < D := Nat.mod_lt n hD
    have hlt1 : ((n % D : Nat) : ℚ) / (D : ℚ) < 1 := by
      rw [div_lt_iff₀ hDq]
      have : ((n % D : Nat) : ℚ) < (D : ℚ) := by exact_mod_cast hmod
      linarith
    have hup : |((n / D + 1 : Nat) : ℚ) - (((n / D : Nat) : ℚ) + ((n % D : Nat) : ℚ) / (D : ℚ))|
        = 1 - ((n % D : Nat) : ℚ) / (D : ℚ) := by
      rw [show ((n / D + 1 : Nat) : ℚ) - (((n / D : Nat) : ℚ) + ((n % D : Nat) : ℚ) / (D : ℚ))
        = 1 - ((n % D : Nat) : ℚ) / (D : ℚ) by push_cast; ring]
      exact abs_of_nonneg (by linarith)
    by_cases h2 : D < 2 * (n % D)
    · rw [if_pos h2, hv, hup]
      have hgt : 1 / 2 < ((n % D : Nat) : ℚ) / (D : ℚ) := by
        rw [lt_div_iff₀ hDq]
        have : (D : ℚ) < ((2 * (n % D) : Nat) : ℚ) := by exact_mod_cast h2
        push_cast at this
        linarith
      exact ⟨by linarith, fun h => absurd h (by intro h'; linarith)⟩
    · rw [if_neg h2]
      have heq : 2 * (n % D) = D := by omega
      have hhalf : ((n % D : Nat) : ℚ) / (D : ℚ) = 1 / 2 := by
        rw [div_eq_iff (ne_of_gt hDq)]
        have : ((2 * (n % D) : Nat) : ℚ) = (D : ℚ) := by exact_mod_cast heq
        push_cast at this
        linarith
      by_cases h3 : (n / D) % 2 = 0
      · rw [if_pos h3, hv]
        have habs : |((n / D : Nat) : ℚ) - (((n / D : Nat) : ℚ) + ((n % D : Nat) : ℚ) / (D : ℚ))|
            = ((n % D : Nat) : ℚ) / (D : ℚ) := by
          rw [show ((n / D : Nat) : ℚ) - (((n / D : Nat) : ℚ) + ((n % D : Nat) : ℚ) / (D : ℚ))
            = -(((n % D : Nat) : ℚ) / (D : ℚ)) by ring, abs_neg, abs_of_nonneg hr0]
        rw [habs, hhalf]
        exact ⟨le_refl _, fun _ => h3⟩
      · rw [if_neg h3, hv, hup, hhalf]
        exact ⟨by norm_num, fun _ => by omega⟩

theorem roundHalfEven_eq_roundHalfUp (n D : Nat) (h : 2 * (n % D) ≠ D) :
    roundHalfEven n D = roundHalfUp n D := by
  unfold roundHalfEven roundHalfUp
  by_cases h1 : 2 * (n % D) < D
  · rw [if_pos h1, if_pos h1]
  · rw [if_neg h1, if_neg h1]
    have h2 : D < 2 * (n % D) := by omega
    rw [if_pos h2]

theorem fract_eq_half_iff (n D : Nat) (hD : 0 < D) :
    Int.fract ((n : ℚ) / (D : ℚ)) = 1 / 2 ↔ 2 * (n % D) = D := by
  have hDq : (0 : ℚ) < (D : ℚ) := by exact_mod_cast hD
  rw [Int.fract_div_natCast_eq_div_natCast_mod, div_eq_iff (ne_of_gt hDq)]
  constructor
  · intro h
    have : ((2 * (n % D) : Nat) : ℚ) = (D : ℚ) := by
      push_cast
      linarith
    exact_mod_cast this
  · intro h
    have : ((2 * (n % D) : Nat) : ℚ) = (D : ℚ) := by exact_mod_cast h
    push_cast at this
    linarith

theorem Float64.den_pos (x : Float64) : 0 < x.den := by
  unfold Float64.den
  exact Nat.pos_pow_of_pos _ (by norm_num)

theorem Float64.thousand_mul_magnitude (x : Float64) :
    1000 * x.magnitude = ((x.num * 1000 : Nat) : ℚ) / (x.den : ℚ) := by
  unfold Float64.magnitude
  push_cast
  ring

theorem toAlertTestResult_TimeMs {σ : Type} (env : Env σ) (res : EvalContext)
    (r : dtos.AlertTestResult) (h : toAlertTestResult env res = some r) :
    r.TimeMs = env.sprintf_1_3f res.durationMs ++ "ms" := by
  unfold toAlertTestResult at h
  cases hrule : res.Rule with
  | none =>
    rw [hrule] at h
    cases h
  | some rule =>
    rw [hrule] at h
    simp only [Option.some.injEq] at h
    rw [← h]

theorem map_JSON_eq_some {σ : Type} (env : Env σ) (res : EvalContext)
    (r : dtos.AlertTestResult)
    (h : (toAlertTestResult env res).map
        (fun dtoRes => Response.JSON 200 (Body.alertTestResult dtoRes))
      = some (Response.JSON 200 (Body.alertTestResult r))) :
    toAlertTestResult env res = some r := by
  cases ht : toAlertTestResult env res with
  | none =>
    rw [ht] at h
    cases h
  | some r0 =>
    rw [ht] at h
    simp only [Option.map_some', Option.some.injEq, Response.JSON.injEq,
      Body.alertTestResult.injEq, true_and] at h
    rw [h]

theorem rendering_examples :
    |duration_12_3456.magnitude - 123456 / 10000| < 1 / 10 ^ 15 ∧
    Sprintf_1_3f duration_12_3456 ++ "ms" = "12.346ms" ∧
    duration_0_0625.magnitude = 625 / 10000 ∧
    Sprintf_1_3f duration_0_0625 ++ "ms" = "0.062ms" ∧
    duration_0_1875.magnitude = 1875 / 10000 ∧
    Sprintf_1_3f duration_0_1875 ++ "ms" = "0.188ms" := by
  refine ⟨?_, by rfl, ?_, by rfl, ?_, by rfl⟩
  · norm_num [Float64.magnitude, Float64.num, Float64.den, Float64.mantissa, Float64.binexp,
      Float64.exponent, Float64.fraction, duration_12_3456, abs_lt]
  · norm_num [Float64.magnitude, Float64.num, Float64.den, Float64.mantissa, Float64.binexp,
      Float64.exponent, Float64.fraction, duration_0_0625]
  · norm_num [Float64.magnitude, Float64.num, Float64.den, Float64.mantissa, Float64.binexp,
      Float64.exponent, Float64.fraction, duration_0_1875]

/-- C10, refuted as stated: a measured duration of 0.0625 ms (the float64 `2 ^ (-4)`, an
exact half of a thousandth above 0.062) is rendered `0.062ms` by the code, in the
normalised result and in the 200 response of `EvaluateAlertById`, whereas three decimal
places under standard rounding, a half going up, give `0.063ms`. -/
theorem TimeMs_half_goes_to_even :
    duration_0_0625.exponent ≠ 2047 ∧
    duration_0_0625.signBit = false ∧
    duration_0_0625.magnitude = 625 / 10000 ∧
    (toAlertTestResult demoEnvFmt (demoOutcome duration_0_0625)).map (fun r => r.TimeMs)
      = some "0.062ms" ∧
    (EvaluateAlertById (demoEnvDuration duration_0_0625) demoReq
        { AlertId := 3, EvalTime := 5 } demoWorld).1
      = some (Response.JSON 200 (Body.alertTestResult
          { Firing := false, ConditionEvals := "", State := "ok", Error := "",
            TimeMs := "0.062ms", Logs := [], EvalMatches := [] })) ∧
    standardRounding_1_3f duration_0_0625 ++ "ms" = "0.063ms" ∧
    Sprintf_1_3f duration_0_0625 ++ "ms" ≠ standardRounding_1_3f duration_0_0625 ++ "ms" := by
  refine ⟨by decide, by rfl, ?_, by rfl, by rfl, by rfl, by decide⟩
  norm_num [Float64.magnitude, Float64.num, Float64.den, Float64.mantissa, Float64.binexp,
    Float64.exponent, Float64.fraction, duration_0_0625]

/-- C10, amended: with the float rendering of Go's `fmt`, the time field of every
normalised result is `Sprintf_1_3f d` followed by `ms`, where `d` is the measured duration;
this holds for the 200 responses of `EvaluateAlert`, `EvaluateAlertById` and `AlertTest`.
For a finite `d` the rendering is a minus sign when the sign bit is set, then the whole
part, a point and exactly three decimal places of `N` thousandths, where `N` is an integer
nearest to the exact value of `1000 * |d|` (within one half), even when `1000 * |d|` lies
exactly half-way between two integers; unless it lies exactly half-way, the rendering is
the one of standard rounding. The float64 nearest to 12.3456 renders as `12.346ms`, the
float64 0.0625 as `0.062ms` and the float64 0.1875 as `0.188ms`. -/
theorem TimeMs_rendering {σ : Type} (env : Env σ) (hs : HTTPServer σ) (c : ReqContext)
    (res : EvalContext) (r : dtos.AlertTestResult)
    (hfmt : ∀ x, env.sprintf_1_3f x = Sprintf_1_3f x)
    (hres : toAlertTestResult env res = some r) :
    r.TimeMs = Sprintf_1_3f res.durationMs ++ "ms" ∧
    (res.durationMs.exponent ≠ 2047 →
      Sprintf_1_3f res.durationMs
        = (if res.durationMs.signBit then "-" else "")
          ++ (toString (res.durationMs.thousandths / 1000) ++ "."
            ++ threePlaces res.durationMs.thousandths) ∧
      (threePlaces res.durationMs.thousandths).length = 3 ∧
      |(res.durationMs.thousandths : ℚ) - 1000 * res.durationMs.magnitude| ≤ 1 / 2 ∧
      (|(res.durationMs.thousandths : ℚ) - 1000 * res.durationMs.magnitude| = 1 / 2 →
        res.durationMs.thousandths % 2 = 0) ∧
      (Int.fract (1000 * res.durationMs.magnitude) ≠ 1 / 2 →
        Sprintf_1_3f res.durationMs = standardRounding_1_3f res.durationMs)) ∧
    (|duration_12_3456.magnitude - 123456 / 10000| < 1 / 10 ^ 15 ∧
      Sprintf_1_3f duration_12_3456 ++ "ms" = "12.346ms" ∧
      duration_0_0625.magnitude = 625 / 10000 ∧
      Sprintf_1_3f duration_0_0625 ++ "ms" = "0.062ms" ∧
      duration_0_1875.magnitude = 1875 / 10000 ∧
      Sprintf_1_3f duration_0_1875 ++ "ms" = "0.188ms") ∧
    (∀ dto w r1,
      (EvaluateAlert env c dto w).1 = some (Response.JSON 200 (Body.alertTestResult r1)) →
      ∃ res1,
        (env.handle (Msg.EvaluateAlertCommand (alertCheckCommand c dto)) w.store).1
          = Except.ok (some res1) ∧
        r1.TimeMs = Sprintf_1_3f res1.durationMs ++ "ms") ∧
    (∀ dto w r1,
      (EvaluateAlertById env c dto w).1
        = some (Response.JSON 200 (Body.alertTestResult r1)) →
      ∃ res1,
        (env.handle (Msg.EvaluateAlertByIdCommand (evaluateAlertByIdCommand c dto)) w.store).1
          = Except.ok (some res1) ∧
        r1.TimeMs = Sprintf_1_3f res1.durationMs ++ "ms") ∧
    (hs.env = env →
      ∀ dto w r1,
        (hs.AlertTest c dto w).response
          = some (Response.JSON 200 (Body.alertTestResult r1)) →
        ∃ res1,
          (hs.AlertEngine (alertTestCall c dto) w).1 = Except.ok (some res1) ∧
          r1.TimeMs = Sprintf_1_3f res1.durationMs ++ "ms") := by
  refine ⟨?_, ?_, rendering_examples, ?_, ?_, ?_⟩
  · rw [toAlertTestResult_TimeMs env res r hres, hfmt]
  · intro hfin
    have hnear := roundHalfEven_nearest (res.durationMs.num * 1000) res.durationMs.den
      res.durationMs.den_pos
    rw [← Float64.thousand_mul_magnitude] at hnear
    refine ⟨?_, by rfl, hnear.1, hnear.2, ?_⟩
    · unfold Sprintf_1_3f
      rw [if_neg hfin]
      rfl
    · intro hfract
      rw [Float64.thousand_mul_magnitude] at hfract
      have hne : 2 * ((res.durationMs.num * 1000) % res.durationMs.den)
          ≠ res.durationMs.den := fun h =>
        hfract ((fract_eq_half_iff _ _ res.durationMs.den_pos).mpr h)
      unfold Sprintf_1_3f standardRounding_1_3f Float64.thousandths
      rw [if_neg hfin, roundHalfEven_eq_roundHalfUp _ _ hne]
  · intro dto w r1 h
    unfold EvaluateAlert at h
    simp only [Dispatch] at h
    rcases hd : env.handle (Msg.EvaluateAlertCommand (alertCheckCommand c dto)) w.store
      with ⟨x, s1⟩
    rw [hd] at h
    cases x with
    | error e => cases h
    | ok o =>
      cases o with
      | none => cases h
      | some res1 =>
        refine ⟨res1, rfl, ?_⟩
        rw [toAlertTestResult_TimeMs env res1 r1 (map_JSON_eq_some env res1 r1 h), hfmt]
  · intro dto w r1 h
    unfold EvaluateAlertById at h
    simp only [Dispatch] at h
    rcases hd : env.handle (Msg.EvaluateAlertByIdCommand (evaluateAlertByIdCommand c dto))
      w.store with ⟨x, s1⟩
    rw [hd] at h
    cases x with
    | error e => cases h
    | ok o =>
      cases o with
      | none => cases h
      | some res1 =>
        refine ⟨res1, rfl, ?_⟩
        rw [toAlertTestResult_TimeMs env res1 r1 (map_JSON_eq_some env res1 r1 h), hfmt]
  · intro henv dto w r1 h
    subst henv
    unfold HTTPServer.AlertTest at h
    cases hid : (hs.GetIdInt64 dto.Dashboard).2 with
    | some e =>
      rw [hid] at h
      cases h
    | none =>
      rw [hid] at h
      simp only [] at h
      rcases hd : hs.AlertEngine (alertTestCall c dto) w with ⟨x, w1⟩
      rw [hd] at h
      cases x with
      | error e =>
        simp only [] at h
        cases hv : e.validationErr with
        | some v =>
          rw [hv] at h
          cases h
        | none =>
          rw [hv] at h
          simp only [] at h
          by_cases hden : e.isErrDataSourceAccessDenied = true
          · rw [if_pos hden] at h
            cases h
          · rw [if_neg hden] at h
            cases h
      | ok o =>
        cases o with
        | none => cases h
        | some res1 =>
          refine ⟨res1, rfl, ?_⟩
          rw [toAlertTestResult_TimeMs hs.env res1 r1 (map_JSON_eq_some hs.env res1 r1 h),
            hfmt]

/-- C10 amended, at concrete inputs: the float64 nearest to 12.3456 (within `10 ^ (-15)`
of it) renders as `12.346ms`, 0.0625 as `0.062ms` and 0.1875 as `0.188ms`. -/
theorem TimeMs_rendering_witness :
    |duration_12_3456.magnitude - 123456 / 10000| < 1 / 10 ^ 15 ∧
    (toAlertTestResult demoEnvFmt (demoOutcome duration_12_3456)).map (fun r => r.TimeMs)
      = some "12.346ms" ∧
    ({ Firing := false, ConditionEvals := "", State := "ok", Error := "",
       TimeMs := "12.346ms", Logs := [], EvalMatches := [] } : dtos.AlertTestResult).TimeMs
      = Sprintf_1_3f duration_12_3456 ++ "ms" ∧
    (toAlertTestResult demoEnvFmt (demoOutcome duration_0_1875)).map (fun r => r.TimeMs)
      = some "0.188ms" ∧
    (toAlertTestResult demoEnvFmt (demoOutcome duration_0_0625)).map (fun r => r.TimeMs)
      = some "0.062ms" ∧
    duration_0_0625.thousandths % 2 = 0 :=
  ⟨by
    norm_num [Float64.magnitude, Float64.num, Float64.den, Float64.mantissa, Float64.binexp,
      Float64.exponent, Float64.fraction, duration_12_3456, abs_lt],
   by rfl,
   (TimeMs_rendering demoEnvFmt demoServer demoReq (demoOutcome duration_12_3456)
      { Firing := false, ConditionEvals := "", State := "ok", Error := "",
        TimeMs := "12.346ms", Logs := [], EvalMatches := [] }
      (fun _ => rfl) (by rfl)).1,
   by rfl,
   by rfl,
   ((TimeMs_rendering demoEnvFmt demoServer demoReq (demoOutcome duration_0_0625)
      { Firing := false, ConditionEvals := "", State := "ok", Error := "",
        TimeMs := "0.062ms", Logs := [], EvalMatches := [] }
      (fun _ => rfl) (by rfl)).2.1 (by decide)).2.2.2.1 (by
        norm_num [Float64.thousandths, Float64.magnitude, Float64.num, Float64.den,
          Float64.mantissa, Float64.binexp, Float64.exponent, Float64.fraction,
          duration_0_0625, demoOutcome, roundHalfEven])⟩

end Alerting
